import Mathlib

/-!
Verification of the topology reconciliation engine of `update_gen.py`
(SCIONLab attachment-point configuration updater).

The Python module manipulates JSON-like nested dictionaries.  We embed the
relevant data shallowly:

* a Python `dict` (insertion ordered, unique keys) is an association list
  `Dict α := List (String × α)`; dictionary assignment, `setdefault`, and
  Python dict equality (order insensitive) are modelled explicitly below;
* a border-router topology is the structure `Topo`, holding the
  `BorderRouters` section (the only section the reconciler touches);
* the remote AS identifier strings (for example `1-ffaa:0:111`) are parsed
  by the source through `ISD_AS(s)` and only the AS number component
  `ISD_AS(s)[1]` is consumed (in `asid_is_infrastructure`).  We model the
  identifier as the pair `ISDAS` of ISD and AS number, which is what the
  parse of the well-formed identifier strings yields;
* the values stored under `InternalAddrs[proto]` are single-key dicts
  `PublicOverlay -> (Addr, OverlayPort)` and the values under
  `CtrlAddr[proto]` are single-key dicts `Public -> (Addr, L4Port)`;
  both are flattened into two-field structures;
* machine integers do not occur: the Python ints involved (ports, ids,
  AS numbers) are arbitrary-precision, embedded as `Nat` (they are
  non-negative in every reachable state: ids come from `APBRID` fields of
  coordinator JSON and ports from fixed positive bases).
-/

/-- A Python dictionary with `String` keys, as an insertion-ordered
association list.  Reachable dictionaries have no duplicate keys
(`dictNodupKeys` below states this invariant). -/
abbrev Dict (α : Type) : Type := List (String × α)

/-- Python dictionary assignment `d[k] = v`: overwrite in place when the key
exists, otherwise append at the end (insertion order). -/
def dictSet {α : Type} (d : Dict α) (k : String) (v : α) : Dict α :=
  if (d.lookup k).isSome then
    d.map (fun kv => if kv.1 = k then (k, v) else kv)
  else
    d ++ [(k, v)]

/-- Python `d.setdefault(k, v)`: insert only when the key is absent. -/
def dictSetdefault {α : Type} (d : Dict α) (k : String) (v : α) : Dict α :=
  match d.lookup k with
  | some _ => d
  | none => d ++ [(k, v)]

/-- The keys of a dictionary, in insertion order (Python `list(d.keys())`). -/
def dictKeys {α : Type} (d : Dict α) : List String := d.map Prod.fst

/-- The invariant every reachable Python dict satisfies: keys are unique. -/
def dictNodupKeys {α : Type} (d : Dict α) : Prop := (dictKeys d).Nodup

instance {α : Type} (d : Dict α) : Decidable (dictNodupKeys d) := by
  unfold dictNodupKeys; infer_instance

/-- Python dict equality `d1 == d2` is order insensitive: same key set, and
the values agreeing key by key under `eqv` (used recursively for nested
dicts). -/
def dictEquiv {α : Type} (eqv : α → α → Bool) (d e : Dict α) : Bool :=
  (d.all fun kv =>
    match e.lookup kv.1 with
    | some v => eqv kv.2 v
    | none => false) &&
  (e.all fun kv =>
    match d.lookup kv.1 with
    | some v => eqv kv.2 v
    | none => false)

/-- Decidable equality as a Bool, for leaf values of nested dicts. -/
def beqv {α : Type} [DecidableEq α] (a b : α) : Bool := decide (a = b)

/-- Lexicographic code-point comparison of character lists, the order
Python uses on strings. -/
def strLeAux : List Char → List Char → Bool
  | [], _ => true
  | _ :: _, [] => false
  | a :: as, b :: bs =>
    if a.toNat < b.toNat then true
    else if b.toNat < a.toNat then false
    else strLeAux as bs

/-- Python string comparison `s <= t` (code-point lexicographic). -/
def pyStrLe (s t : String) : Bool := strLeAux s.data t.data

/-- Insertion step of the sort modelling Python `sorted`. -/
def insertSorted (x : String) : List String → List String
  | [] => [x]
  | y :: ys => if pyStrLe x y then x :: y :: ys else y :: insertSorted x ys

/-- Python `sorted(...)` on strings: ascending code-point order. -/
def sortedStrings (l : List String) : List String := l.foldr insertSorted []

/-- Python `s.split(sep)[-1]` for a one-character separator: the suffix after
the last occurrence of the separator (the whole string when absent, empty
when the string ends with it). -/
def splitDashLast (s : String) : String :=
  String.mk (s.data.foldl (fun acc c => if c = '-' then [] else acc ++ [c]) [])

/-- A remote AS identifier, the result of parsing an `ISD-AS` string such as
`1-ffaa:0:111` with `ISD_AS`; the source reads component `[1]`, the AS
number, modelled as the field `asn`. -/
structure ISDAS where
  isd : Nat
  asn : Nat
deriving DecidableEq

/-- The value stored under `InternalAddrs[proto]`, flattening the inner
single-key dict `PublicOverlay -> (Addr, OverlayPort)`. -/
structure OverlayAddr where
  addr : String
  overlayPort : Nat
deriving DecidableEq

/-- The value stored under `CtrlAddr[proto]`, flattening the inner
single-key dict `Public -> (Addr, L4Port)`. -/
structure CtrlAddrVal where
  addr : String
  l4Port : Nat
deriving DecidableEq

/-- One interface entry of a border router (`topology.json` schema used by
`_insert_interface` and `_remove_child_interfaces`). -/
structure Interface where
  overlay : String
  isd_as : ISDAS
  linkTo : String
  bandwidth : Nat
  mtu : Nat
  remoteOverlay : OverlayAddr
  publicOverlay : OverlayAddr
deriving DecidableEq

/-- One entry of the `BorderRouters` section. -/
structure BorderRouter where
  internalAddrs : Dict OverlayAddr
  ctrlAddr : Dict CtrlAddrVal
  interfaces : Dict Interface
deriving DecidableEq

/-- The topology document; only the `BorderRouters` section is read or
written by the reconciliation code, the remaining sections pass through
unchanged and are omitted. -/
structure Topo where
  borderRouters : Dict BorderRouter
deriving DecidableEq

/-- One desired connection from the coordinator response
(`request_fullsync` docstring gives the schema).  `ASID` is the remote AS
identifier (parsed), `APBRID` is used as the interface id. -/
structure Conn where
  ASID : ISDAS
  UserIP : String
  UserPort : Nat
  APPort : Nat
  APBRID : Nat
  IsVPN : Bool
  VPNUserID : String
deriving DecidableEq

/-- The per-AS record of the coordinator response: its `connections` list.
The enclosing dict key `connections` is fixed and flattened away. -/
abbrev SyncStatus : Type := List Conn

/-- The fields of `LocalConfig` consumed by the pure reconciliation. -/
structure LocalConfig where
  interface_ip : String
  internal_ip : String
deriving DecidableEq

/-- Module-level constant `VPN_ADDR`. -/
def VPN_ADDR : String := "10.0.8.1"

/-- Module-level constant `MTU`. -/
def MTU : Nat := 1472

/-- Module-level constant `BANDWIDTH`. -/
def BANDWIDTH : Nat := 1000

/-- Module-level constant `BR_INTERNAL_START_PORT`. -/
def BR_INTERNAL_START_PORT : Nat := 30050

/-- Module-level constant `MAX_IFACES_IN_BR`. -/
def MAX_IFACES_IN_BR : Nat := 12

/-- Source lines 87 and 88:
`return asid > 0xffaa00000000 and asid < 0xffaa00010000`. -/
def asid_is_infrastructure (asid : Nat) : Bool :=
  decide (asid > 0xffaa00000000) && decide (asid < 0xffaa00010000)

/-- The deletion condition of `_remove_child_interfaces` (line 222): the
interface goes to a non-infrastructure AS and is tagged `CHILD`. -/
def pruneCondition (iface : Interface) : Bool :=
  !asid_is_infrastructure iface.isd_as.asn && (iface.linkTo == "CHILD")

/-- Source lines 211 to 226: drop every interface satisfying
`pruneCondition`, then drop every border router left without interfaces. -/
def _remove_child_interfaces (topo : Topo) : Topo :=
  { borderRouters :=
      ((topo.borderRouters.map fun kv =>
          (kv.1, { kv.2 with
                    interfaces := kv.2.interfaces.filter fun ikv => !pruneCondition ikv.2 })).filter
        fun kv => !kv.2.interfaces.isEmpty) }

/-- Source lines 571 to 576: a fresh border-router entry with the three
empty sections (in the zero-router branch of `_combine_border_routers` the
same shape arises from `setdefault` of the three keys on `{}`). -/
def _create_border_router : BorderRouter :=
  { internalAddrs := [], ctrlAddr := [], interfaces := [] }

/-- Merging one source router into the accumulating router: the three
`setdefault` loops of `_combine_border_routers` (lines 250 to 255),
first-wins per key. -/
def mergeBR (acc src : BorderRouter) : BorderRouter :=
  { internalAddrs := src.internalAddrs.foldl (fun d kv => dictSetdefault d kv.1 kv.2) acc.internalAddrs
    ctrlAddr := src.ctrlAddr.foldl (fun d kv => dictSetdefault d kv.1 kv.2) acc.ctrlAddr
    interfaces := src.interfaces.foldl (fun d kv => dictSetdefault d kv.1 kv.2) acc.interfaces }

/-- The `else` branch of `_combine_border_routers` (lines 242 to 256):
take or create the entry `brname` (`setdefault`, giving the three empty
sections) and merge every other router into it, first-wins by sorted
source-router name, deleting the sources. -/
def combineMany (brs : Dict BorderRouter) (brname : String) : BorderRouter :=
  let br0 := (brs.lookup brname).getD _create_border_router
  let others := sortedStrings ((dictKeys brs).dedup.filter fun n => !(n == brname))
  others.foldl
    (fun acc n =>
      match brs.lookup n with
      | some src => mergeBR acc src
      | none => acc)
    br0

/-- Source lines 229 to 257.  With exactly one router, rename it to
`brname` (pop plus reinsert of the sole entry).  Otherwise merge via
`combineMany`.  Either way the resulting `BorderRouters` dict is the
single entry `brname`.  Returns the new dict and the combined router (the
Python function mutates `topo` in place and returns the entry). -/
def _combine_border_routers (brs : Dict BorderRouter) (brname : String) :
    Dict BorderRouter × BorderRouter :=
  match brs with
  | [kv] => ([(brname, kv.2)], kv.2)
  | _ => ([(brname, combineMany brs brname)], combineMany brs brname)

/-- The interface dict literal built on lines 554 to 568 (the interface id
appears only as the enclosing dict key, not in the value). -/
def mkInterface (as_id : ISDAS) (as_ip : String) (as_port : Nat)
    (ap_ip : String) (ap_port : Nat) : Interface :=
  { overlay := "UDP/IPv4"
    isd_as := as_id
    linkTo := "CHILD"
    bandwidth := BANDWIDTH
    mtu := MTU
    remoteOverlay := { addr := as_ip, overlayPort := as_port }
    publicOverlay := { addr := ap_ip, overlayPort := ap_port } }

/-- Source lines 525 to 568, `_insert_interface`: lazily initialize the
IPv4 control and internal addresses from the interface id, then assign the
new interface under key `str(if_id)`. -/
def _insert_interface (br : BorderRouter) (if_id : Nat) (as_id : ISDAS) (as_ip : String)
    (as_port : Nat) (ap_ip : String) (ap_port : Nat) (internal_ip : String) : BorderRouter :=
  { ctrlAddr := dictSetdefault br.ctrlAddr "IPv4"
      { addr := internal_ip, l4Port := BR_INTERNAL_START_PORT - 1 + if_id }
    internalAddrs := dictSetdefault br.internalAddrs "IPv4"
      { addr := internal_ip, overlayPort := BR_INTERNAL_START_PORT + 1000 - 1 + if_id }
    interfaces := dictSet br.interfaces (toString if_id)
      (mkInterface as_id as_ip as_port ap_ip ap_port) }

/-- State of the connection loop of `fullsync_local_gen` (lines 124 to
147).  The Python variable `br` aliases the last element of `userBRs` and
is mutated in place; we keep that open router separately (`openBR`) next
to the already-filled ones (`closedBRs`), with
`userBRs = closedBRs ++ openBR.toList`. -/
structure LoopState where
  existing_ifids : List String
  closedBRs : List BorderRouter
  openBR : Option BorderRouter
  skipped : List Nat
deriving DecidableEq

/-- The user border routers accumulated so far, in creation order (the
Python list `userBRs`). -/
def LoopState.userBRs (s : LoopState) : List BorderRouter :=
  s.closedBRs ++ s.openBR.toList

/-- One iteration of the loop over `enumerate(connections)` (lines 127 to
147).  Refuse ids at most 10 and ids already present; otherwise open a new
user router when none is open or the open one is full, and insert the
interface.  The VPN side effects (`configure_vpn_ip`) do not touch the
topology or the acknowledgment and are not modelled. -/
def connStep (config : LocalConfig) (s : LoopState) (i : Nat) (conn : Conn) : LoopState :=
  let if_id := conn.APBRID
  if if_id ≤ 10 ∨ toString if_id ∈ s.existing_ifids then
    { s with skipped := s.skipped ++ [i] }
  else
    let acc :=
      match s.openBR with
      | none => (s.closedBRs, _create_border_router)
      | some br =>
        if br.interfaces.length ≥ MAX_IFACES_IN_BR then
          (s.closedBRs ++ [br], _create_border_router)
        else
          (s.closedBRs, br)
    let ap_ip := if conn.IsVPN then VPN_ADDR else config.interface_ip
    let br := _insert_interface acc.2 if_id conn.ASID conn.UserIP conn.UserPort ap_ip
      conn.APPort config.internal_ip
    { existing_ifids := s.existing_ifids ++ [toString if_id]
      closedBRs := acc.1
      openBR := some br
      skipped := s.skipped }

/-- The name `br{asid}-{idx}` built by the format strings on lines 120
and 149. -/
def brName (asid : String) (idx : Nat) : String :=
  "br" ++ asid ++ "-" ++ toString idx

/-- Python dict equality for the `BorderRouters` values: the three nested
dicts compare order insensitively, their (flattened) leaf values
structurally. -/
def brEquiv (a b : BorderRouter) : Bool :=
  dictEquiv beqv a.internalAddrs b.internalAddrs &&
  dictEquiv beqv a.ctrlAddr b.ctrlAddr &&
  dictEquiv beqv a.interfaces b.interfaces

/-- Result of one per-AS reconciliation pass. -/
structure FullsyncResult where
  new_tp : Topo
  userBRs : List BorderRouter
  skipped : List Nat
  connections : List Conn
  topo_changed : Bool
deriving DecidableEq

/-- Lines 118 to 120: the infrastructure border router, result of pruning
and combining under the name `br{asid}-1`. -/
def infraBR (my_asid : String) (tp : Topo) : BorderRouter :=
  (_combine_border_routers (_remove_child_interfaces tp).borderRouters (brName my_asid 1)).2

/-- The loop state before the first connection: `existing_ifids` holds the
interface ids of the combined router (line 121), no user router exists yet
(lines 122 to 126). -/
def initLoopState (my_asid : String) (tp : Topo) : LoopState :=
  { existing_ifids := dictKeys (infraBR my_asid tp).interfaces
    closedBRs := []
    openBR := none
    skipped := [] }

/-- The `for i, conn in enumerate(connections)` loop (lines 127 to 147) as
a fold of `connStep` over index-connection pairs. -/
def runLoop (config : LocalConfig) (l : List (Nat × Conn)) (s : LoopState) : LoopState :=
  l.foldl (fun s ic => connStep config s ic.1 ic.2) s

/-- The loop state after all connections have been processed. -/
def finalLoopState (config : LocalConfig) (my_asid : String) (tp : Topo)
    (connections : List Conn) : LoopState :=
  runLoop config connections.enum (initLoopState my_asid tp)

/-- Lines 148 to 150: assign the user routers into the topology under the
names `br{asid}-{i+11}`; `k` is the enumeration offset (0 at the call
site). -/
def placeUserBRs (my_asid : String) (k : Nat) (ubrs : List BorderRouter)
    (d : Dict BorderRouter) : Dict BorderRouter :=
  (List.enumFrom k ubrs).foldl (fun d ib => dictSet d (brName my_asid (ib.1 + 11)) ib.2) d

/-- The `BorderRouters` section of the new topology produced by one pass:
the combined infrastructure router plus the user routers. -/
def newBRs (config : LocalConfig) (my_asid : String) (tp : Topo)
    (connections : List Conn) : Dict BorderRouter :=
  placeUserBRs my_asid 0 (finalLoopState config my_asid tp connections).userBRs
    (_combine_border_routers (_remove_child_interfaces tp).borderRouters (brName my_asid 1)).1

/-- Source lines 116 to 159, the pure reconciliation pass of
`fullsync_local_gen` for the one targeted AS: prune child links, combine
the remaining routers into the infrastructure router `br{asid}-1`, allocate
interfaces for the desired connections, append the user routers, filter
the skipped connections out of the status (the in-place
`connections[:] = ...` update, lines 151 to 156), and compare the old and
new `BorderRouters` sections with Python dict equality (`!=`, line 159). -/
def fullsync_local_gen_core (config : LocalConfig) (my_asid : String) (tp : Topo)
    (connections : List Conn) : FullsyncResult :=
  { new_tp := { borderRouters := newBRs config my_asid tp connections }
    userBRs := (finalLoopState config my_asid tp connections).userBRs
    skipped := (finalLoopState config my_asid tp connections).skipped
    connections := connections.enum.filterMap
      fun ic =>
        if ic.1 ∈ (finalLoopState config my_asid tp connections).skipped then none
        else some ic.2
    topo_changed :=
      !dictEquiv brEquiv tp.borderRouters (newBRs config my_asid tp connections) }

/-! ### The acknowledgment epilogue (claim C1)

Source lines 168 to 181.  `response` is a Python local variable assigned
only inside the `try` block; when `reply_fullsync` raises, the `except`
block prints a diagnostic, and the subsequent read of `response` on line
174 raises `UnboundLocalError`, which nothing catches. -/

/-- Outcome of the `coordinator.reply_fullsync` call. -/
inductive ReplyOutcome : Type where
  | raised : ReplyOutcome
  | returned : Dict SyncStatus → ReplyOutcome
deriving DecidableEq

/-- Source lines 168 to 181: the tail of `fullsync_local_gen`.  An
`Except.error` result models an uncaught Python exception escaping
`fullsync_local_gen`; `Except.ok b` models the function returning the
verdict `b`. -/
def ack_epilogue (ackMsg : Dict SyncStatus) (outcome : ReplyOutcome)
    (topoHasChanged : Bool) : Except String Bool :=
  if ackMsg.isEmpty then
    Except.ok topoHasChanged
  else
    match outcome with
    | ReplyOutcome.raised =>
      Except.error "UnboundLocalError: local variable response referenced before assignment"
    | ReplyOutcome.returned _ => Except.ok topoHasChanged

/-! ### The monitoring remap (claim C2)

Source lines 183 to 209, `_reset_monitoring`. -/

/-- Outcome of the `requests.put` call on line 203: either the transport
raised, or a response with the given status code came back. -/
inductive PutOutcome : Type where
  | raised : PutOutcome
  | responded : Nat → PutOutcome
deriving DecidableEq

/-- `Response.ok` of the requests library: the status code is below 400. -/
def respOk (statusCode : Nat) : Bool := decide (statusCode < 400)

/-- Lines 191 to 196: one `(label, port)` pair per border router; the label
comes from the last dash-separated component of the router name and the
port from `InternalAddrs.IPv4.PublicOverlay.OverlayPort` plus
`PROM_PORT_OFFSET` (a constant brought in from `local_config_util`, which
is outside this repository snapshot; it is passed as the parameter
`promPortOffset`).  A missing `IPv4` entry raises `KeyError` (modelled as
`Except.error`). -/
def computeMappings (promPortOffset : Nat) (brs : Dict BorderRouter) :
    Except String (List (String × Nat)) :=
  brs.mapM fun kv =>
    match kv.2.internalAddrs.lookup "IPv4" with
    | some a =>
      Except.ok ("/br-" ++ splitDashLast kv.1, a.overlayPort + promPortOffset)
    | none => Except.error "KeyError: IPv4"

/-- Observable outcome of `_reset_monitoring`: whether the marker file
exists afterwards, and either the returned `updated` flag or an uncaught
exception. -/
structure ResetMonitoringResult where
  markerPresent : Bool
  outcome : Except String Bool

/-- Source lines 183 to 209.  The marker file is created first (line 190).
If building the mappings raises (`KeyError`), the exception escapes and the
marker stays.  Otherwise the `put` is attempted inside `try`: when the
transport raises, the `except` branch prints and the marker stays, with
`updated` still `False`; when a response arrives, `updated = resp.ok` and
`os.remove` deletes the marker regardless of the status code. -/
def _reset_monitoring (promPortOffset : Nat) (tp : Topo) (put : PutOutcome) :
    ResetMonitoringResult :=
  match computeMappings promPortOffset tp.borderRouters with
  | Except.error e => { markerPresent := true, outcome := Except.error e }
  | Except.ok _ =>
    match put with
    | PutOutcome.raised => { markerPresent := true, outcome := Except.ok false }
    | PutOutcome.responded status =>
      { markerPresent := false, outcome := Except.ok (respOk status) }

/-! ### Well-formedness: reachable Python dicts have unique keys -/

/-- All three dicts of a border router have unique keys. -/
def BorderRouter.WF (br : BorderRouter) : Prop :=
  dictNodupKeys br.internalAddrs ∧ dictNodupKeys br.ctrlAddr ∧ dictNodupKeys br.interfaces

instance (br : BorderRouter) : Decidable br.WF := by
  unfold BorderRouter.WF; infer_instance

/-- The `BorderRouters` dict has unique keys and every router is
well-formed. -/
def Topo.WF (tp : Topo) : Prop :=
  dictNodupKeys tp.borderRouters ∧ ∀ kv ∈ tp.borderRouters, kv.2.WF

instance (tp : Topo) : Decidable tp.WF := by
  unfold Topo.WF; infer_instance

/-- The interface-id strings of the user routers, in insertion order. -/
def userIfids (s : LoopState) : List String :=
  (s.userBRs.map fun br => dictKeys br.interfaces).flatten

/-- Invariant of the connection loop, relative to the interface-id list
`init` captured before the loop (line 121) and the batch `A` of desired
connections: the id list grows exactly by the ids of the user-router
interfaces, ids stay unique, every user router respects the capacity
bound, every newly inserted id is the decimal rendering of an accepted
(greater than 10) requested id, user routers are well-formed dicts, and
every inserted interface is a `CHILD` link towards the remote AS of one of
the batch connections. -/
def LoopInv (init : List String) (A : List Conn) (s : LoopState) : Prop :=
  s.existing_ifids = init ++ userIfids s
  ∧ (init.Nodup → s.existing_ifids.Nodup)
  ∧ (∀ br ∈ s.userBRs, br.interfaces.length ≤ MAX_IFACES_IN_BR)
  ∧ (∀ id ∈ userIfids s, ∃ k, 10 < k ∧ id = toString k)
  ∧ (∀ br ∈ s.userBRs, br.WF)
  ∧ (∀ br ∈ s.userBRs, ∀ ikv ∈ br.interfaces,
      ikv.2.linkTo = "CHILD" ∧ ∃ c ∈ A, ikv.2.isd_as = c.ASID)

/-- Numeric value of a decimal digit character (proof infrastructure for
the injectivity of the decimal rendering `str(if_id)`). -/
def charVal (c : Char) : Nat := c.toNat - 48

/-- Value of a decimal digit string, most significant digit first (proof
infrastructure). -/
def digitsVal (ds : List Char) : Nat :=
  ds.foldl (fun a c => 10 * a + charVal c) 0

/-! ## Helper lemmas about the dictionary model -/

theorem dictKeys_cons {α : Type} (kv : String × α) (d : Dict α) :
    dictKeys (kv :: d) = kv.1 :: dictKeys d := rfl

theorem dictKeys_append {α : Type} (d e : Dict α) :
    dictKeys (d ++ e) = dictKeys d ++ dictKeys e := by
  simp [dictKeys]

theorem lookup_eq_none_iff {α : Type} (d : Dict α) (k : String) :
    d.lookup k = none ↔ k ∉ dictKeys d := by
  induction d with
  | nil => simp [dictKeys]
  | cons kv rest ih =>
    rcases kv with ⟨a, v⟩
    rw [List.lookup_cons, dictKeys_cons]
    cases hba : (k == a) with
    | true =>
      have hk : k = a := by simpa using hba
      simp [hk]
    | false =>
      have hk : ¬ k = a := by simpa using hba
      simp [hk, ih]

theorem lookup_isSome_iff {α : Type} (d : Dict α) (k : String) :
    (d.lookup k).isSome ↔ k ∈ dictKeys d := by
  rcases h : d.lookup k with _ | v
  · simp [(lookup_eq_none_iff d k).1 h]
  · have : k ∈ dictKeys d := by
      by_contra hk
      rw [(lookup_eq_none_iff d k).2 hk] at h
      exact Option.noConfusion h
    simp [this]

theorem lookup_mem {α : Type} {d : Dict α} {k : String} {v : α}
    (h : d.lookup k = some v) : (k, v) ∈ d := by
  induction d with
  | nil => simp [List.lookup] at h
  | cons kv rest ih =>
    rcases kv with ⟨a, w⟩
    rw [List.lookup_cons] at h
    cases hba : (k == a) with
    | true =>
      have hk : k = a := by simpa using hba
      rw [hba] at h
      simp at h
      simp [hk, h]
    | false =>
      rw [hba] at h
      exact List.mem_cons_of_mem _ (ih h)

theorem mem_lookup_of_nodup {α : Type} {d : Dict α} (hd : dictNodupKeys d) {k : String}
    {v : α} (h : (k, v) ∈ d) : d.lookup k = some v := by
  induction d with
  | nil => simp at h
  | cons kv rest ih =>
    rcases kv with ⟨a, w⟩
    have hd2 := (List.nodup_cons.1 hd)
    rcases List.mem_cons.1 h with h1 | h1
    · have hk : k = a := congrArg Prod.fst h1
      have hv : v = w := congrArg Prod.snd h1
      subst hk; subst hv
      simp [List.lookup_cons]
    · have hne : k ≠ a := by
        intro hk
        subst hk
        have hmem : k ∈ dictKeys rest := by
          simpa [dictKeys] using List.mem_map_of_mem Prod.fst h1
        exact hd2.1 (by simpa [dictKeys] using hmem)
      rw [List.lookup_cons]
      have hba : (k == a) = false := by simpa using hne
      rw [hba]
      exact ih hd2.2 h1

theorem dictSet_of_not_mem {α : Type} (d : Dict α) (k : String) (v : α)
    (h : k ∉ dictKeys d) : dictSet d k v = d ++ [(k, v)] := by
  unfold dictSet
  rw [(lookup_eq_none_iff d k).2 h]
  simp

theorem dictSet_keys_of_mem {α : Type} (d : Dict α) (k : String) (v : α)
    (h : k ∈ dictKeys d) : dictKeys (dictSet d k v) = dictKeys d := by
  unfold dictSet
  rw [if_pos ((lookup_isSome_iff d k).2 h)]
  simp only [dictKeys, List.map_map]
  apply List.map_congr_left
  intro kv _
  by_cases hk : kv.1 = k
  · simp [hk]
  · simp [hk]

theorem nodup_append_singleton {l : List String} {k : String}
    (h : l.Nodup) (hk : k ∉ l) : (l ++ [k]).Nodup := by
  refine List.Nodup.append h (List.nodup_singleton k) ?_
  intro x hx hx2
  rw [List.mem_singleton] at hx2
  subst hx2
  exact hk hx

theorem dictSet_nodup {α : Type} (d : Dict α) (k : String) (v : α)
    (h : dictNodupKeys d) : dictNodupKeys (dictSet d k v) := by
  by_cases hk : k ∈ dictKeys d
  · unfold dictNodupKeys
    rw [dictSet_keys_of_mem d k v hk]
    exact h
  · unfold dictNodupKeys
    rw [dictSet_of_not_mem d k v hk, dictKeys_append]
    exact nodup_append_singleton h hk

theorem dictSetdefault_of_mem {α : Type} (d : Dict α) (k : String) (v : α)
    (h : k ∈ dictKeys d) : dictSetdefault d k v = d := by
  unfold dictSetdefault
  rcases hl : d.lookup k with _ | w
  · exact absurd ((lookup_eq_none_iff d k).1 hl) (by simp [h])
  · rfl

theorem dictSetdefault_of_not_mem {α : Type} (d : Dict α) (k : String) (v : α)
    (h : k ∉ dictKeys d) : dictSetdefault d k v = d ++ [(k, v)] := by
  unfold dictSetdefault
  rw [(lookup_eq_none_iff d k).2 h]

theorem dictSetdefault_nodup {α : Type} (d : Dict α) (k : String) (v : α)
    (h : dictNodupKeys d) : dictNodupKeys (dictSetdefault d k v) := by
  by_cases hk : k ∈ dictKeys d
  · rw [dictSetdefault_of_mem d k v hk]; exact h
  · rw [dictSetdefault_of_not_mem d k v hk]
    unfold dictNodupKeys
    rw [dictKeys_append]
    exact nodup_append_singleton h hk

theorem dictSetdefault_sub {α : Type} (d : Dict α) (k : String) (v : α) :
    ∀ x ∈ dictSetdefault d k v, x ∈ d ∨ x = (k, v) := by
  intro x hx
  unfold dictSetdefault at hx
  rcases hl : d.lookup k with _ | w <;> rw [hl] at hx
  · rcases List.mem_append.1 hx with h1 | h1
    · exact Or.inl h1
    · exact Or.inr (by simpa using h1)
  · exact Or.inl hx

theorem dictSetdefault_length {α : Type} (d : Dict α) (k : String) (v : α) :
    d.length ≤ (dictSetdefault d k v).length := by
  unfold dictSetdefault
  rcases d.lookup k with _ | w
  · simp
  · simp

theorem foldSetdefault_sub {α : Type} (src : List (String × α)) (d : Dict α) :
    ∀ x ∈ src.foldl (fun d kv => dictSetdefault d kv.1 kv.2) d, x ∈ d ∨ x ∈ src := by
  induction src generalizing d with
  | nil => intro x hx; exact Or.inl hx
  | cons kv rest ih =>
    intro x hx
    rw [List.foldl_cons] at hx
    rcases ih (dictSetdefault d kv.1 kv.2) x hx with h1 | h1
    · rcases dictSetdefault_sub d kv.1 kv.2 x h1 with h2 | h2
      · exact Or.inl h2
      · exact Or.inr (by simp [h2])
    · exact Or.inr (List.mem_cons_of_mem _ h1)

theorem foldSetdefault_nodup {α : Type} (src : List (String × α)) (d : Dict α)
    (h : dictNodupKeys d) :
    dictNodupKeys (src.foldl (fun d kv => dictSetdefault d kv.1 kv.2) d) := by
  induction src generalizing d with
  | nil => exact h
  | cons kv rest ih =>
    rw [List.foldl_cons]
    exact ih _ (dictSetdefault_nodup d kv.1 kv.2 h)

theorem foldSetdefault_length {α : Type} (src : List (String × α)) (d : Dict α) :
    d.length ≤ (src.foldl (fun d kv => dictSetdefault d kv.1 kv.2) d).length := by
  induction src generalizing d with
  | nil => exact Nat.le_refl _
  | cons kv rest ih =>
    rw [List.foldl_cons]
    exact Nat.le_trans (dictSetdefault_length d kv.1 kv.2) (ih _)

theorem foldSetdefault_ne_nil {α : Type} (src : List (String × α)) (d : Dict α)
    (h : src ≠ [] ∨ d ≠ []) :
    src.foldl (fun d kv => dictSetdefault d kv.1 kv.2) d ≠ [] := by
  have hlen : 0 < (src.foldl (fun d kv => dictSetdefault d kv.1 kv.2) d).length := by
    rcases h with h | h
    · rcases src with _ | ⟨kv, rest⟩
      · exact absurd rfl h
      · rw [List.foldl_cons]
        have h1 : 0 < (dictSetdefault d kv.1 kv.2).length := by
          unfold dictSetdefault
          rcases hl : d.lookup kv.1 with _ | w
          · simp
          · have hm := lookup_mem hl
            exact List.length_pos.2 (by rintro rfl; simp at hm)
        exact Nat.lt_of_lt_of_le h1 (foldSetdefault_length rest _)
    · have h1 : 0 < d.length := List.length_pos.2 h
      exact Nat.lt_of_lt_of_le h1 (foldSetdefault_length src d)
  intro hnil
  rw [hnil] at hlen
  simp at hlen

theorem dictEquiv_refl {α : Type} (eqv : α → α → Bool) (d : Dict α)
    (hd : dictNodupKeys d) (he : ∀ kv ∈ d, eqv kv.2 kv.2 = true) :
    dictEquiv eqv d d = true := by
  unfold dictEquiv
  rw [Bool.and_eq_true]
  constructor <;>
  · rw [List.all_eq_true]
    intro kv hkv
    rw [mem_lookup_of_nodup hd (show (kv.1, kv.2) ∈ d by simpa using hkv)]
    exact he kv hkv

theorem beqv_refl {α : Type} [DecidableEq α] (a : α) : beqv a a = true := by
  simp [beqv]

theorem brEquiv_refl (br : BorderRouter) (h : br.WF) : brEquiv br br = true := by
  unfold brEquiv
  rcases h with ⟨h1, h2, h3⟩
  rw [dictEquiv_refl beqv _ h1 (fun kv _ => beqv_refl kv.2),
    dictEquiv_refl beqv _ h2 (fun kv _ => beqv_refl kv.2),
    dictEquiv_refl beqv _ h3 (fun kv _ => beqv_refl kv.2)]
  rfl

/-! ## Injectivity of the decimal rendering of naturals (`str(n)`) -/

theorem toDigitsCore_acc (b fuel n : Nat) (ds : List Char) :
    Nat.toDigitsCore b fuel n ds = Nat.toDigitsCore b fuel n [] ++ ds := by
  induction fuel generalizing n ds with
  | zero => simp [Nat.toDigitsCore]
  | succ f ih =>
    simp only [Nat.toDigitsCore]
    by_cases h : n / b = 0
    · simp [h]
    · simp only [h, if_false]
      rw [ih (n / b) (Nat.digitChar (n % b) :: ds), ih (n / b) [Nat.digitChar (n % b)]]
      simp

theorem digitsVal_append (xs : List Char) (c : Char) :
    digitsVal (xs ++ [c]) = 10 * digitsVal xs + charVal c := by
  simp [digitsVal, List.foldl_append]

theorem charVal_digitChar (d : Nat) (h : d < 10) : charVal (Nat.digitChar d) = d := by
  interval_cases d <;> decide

theorem digitsVal_toDigitsCore (fuel n : Nat) (h : n < fuel) :
    digitsVal (Nat.toDigitsCore 10 fuel n []) = n := by
  induction fuel generalizing n with
  | zero => omega
  | succ f ih =>
    simp only [Nat.toDigitsCore]
    by_cases h0 : n / 10 = 0
    · have hn : n < 10 := by omega
      simp only [h0, if_true]
      have : digitsVal [Nat.digitChar (n % 10)] = charVal (Nat.digitChar (n % 10)) := by
        simp [digitsVal]
      rw [this, charVal_digitChar _ (Nat.mod_lt _ (by norm_num))]
      omega
    · simp only [h0, if_false]
      rw [toDigitsCore_acc, digitsVal_append]
      have hlt : n / 10 < f := by omega
      rw [ih (n / 10) hlt, charVal_digitChar _ (Nat.mod_lt _ (by norm_num))]
      omega

theorem natRepr_inj {m n : Nat} (h : Nat.repr m = Nat.repr n) : m = n := by
  have hdata : Nat.toDigits 10 m = Nat.toDigits 10 n := by
    have := congrArg String.data h
    simpa [Nat.repr, List.asString] using this
  have hm := digitsVal_toDigitsCore (m + 1) m (Nat.lt_succ_self m)
  have hn := digitsVal_toDigitsCore (n + 1) n (Nat.lt_succ_self n)
  unfold Nat.toDigits at hdata
  rw [← hm, ← hn, hdata]

theorem natToString_inj {m n : Nat} (h : toString m = toString n) : m = n :=
  natRepr_inj h

theorem brName_inj {asid : String} {i j : Nat} (h : brName asid i = brName asid j) :
    i = j := by
  unfold brName at h
  have h2 : ("br" ++ asid ++ "-").data ++ (toString i).data
      = ("br" ++ asid ++ "-").data ++ (toString j).data := by
    have := congrArg String.data h
    simpa [String.data_append, List.append_assoc] using this
  have h3 : (toString i).data = (toString j).data := List.append_cancel_left h2
  exact natToString_inj (by
    apply String.ext
    exact h3)

/-! ## Lemmas about pruning (`_remove_child_interfaces`) -/

theorem prune_iface_keep (tp : Topo) :
    ∀ kv ∈ (_remove_child_interfaces tp).borderRouters,
      ∀ ikv ∈ kv.2.interfaces, pruneCondition ikv.2 = false := by
  intro kv hkv ikv hikv
  unfold _remove_child_interfaces at hkv
  simp only [List.mem_filter] at hkv
  rcases List.mem_map.1 hkv.1 with ⟨kv0, hkv0, heq⟩
  rw [← heq] at hikv
  simp only at hikv
  have h2 := (List.mem_filter.1 hikv).2
  simpa using h2

theorem prune_ifaces_ne_nil (tp : Topo) :
    ∀ kv ∈ (_remove_child_interfaces tp).borderRouters, kv.2.interfaces ≠ [] := by
  intro kv hkv
  unfold _remove_child_interfaces at hkv
  have h2 := (List.mem_filter.1 hkv).2
  simp only [Bool.not_eq_true'] at h2
  intro hnil
  rw [hnil] at h2
  simp at h2

theorem prune_WF (tp : Topo) (h : tp.WF) : (_remove_child_interfaces tp).WF := by
  rcases h with ⟨h1, h2⟩
  constructor
  · unfold _remove_child_interfaces dictNodupKeys dictKeys
    have hsub : (((tp.borderRouters.map fun kv =>
        (kv.1, { kv.2 with
                  interfaces := kv.2.interfaces.filter fun ikv => !pruneCondition ikv.2 })).filter
          fun kv => !kv.2.interfaces.isEmpty).map Prod.fst).Sublist
        ((tp.borderRouters.map fun kv =>
          (kv.1, { kv.2 with
                    interfaces := kv.2.interfaces.filter fun ikv => !pruneCondition ikv.2 })).map
          Prod.fst) :=
      List.Sublist.map Prod.fst (List.filter_sublist _)
    refine hsub.nodup ?_
    rw [List.map_map]
    exact h1
  · intro kv hkv
    unfold _remove_child_interfaces at hkv
    simp only [List.mem_filter] at hkv
    rcases List.mem_map.1 hkv.1 with ⟨kv0, hkv0, heq⟩
    rcases h2 kv0 hkv0 with ⟨w1, w2, w3⟩
    rw [← heq]
    refine ⟨w1, w2, ?_⟩
    unfold dictNodupKeys dictKeys at w3 ⊢
    exact (List.Sublist.map Prod.fst (List.filter_sublist _)).nodup w3

/-! ## Lemmas about combining (`_combine_border_routers`) -/

theorem combine_fst (brs : Dict BorderRouter) (brname : String) :
    (_combine_border_routers brs brname).1
      = [(brname, (_combine_border_routers brs brname).2)] := by
  unfold _combine_border_routers
  rcases brs with _ | ⟨kv, rest⟩
  · rfl
  · rcases rest with _ | ⟨kv2, rest2⟩ <;> rfl

theorem mergeBR_ifaces_sub (acc src : BorderRouter) :
    ∀ ikv ∈ (mergeBR acc src).interfaces, ikv ∈ acc.interfaces ∨ ikv ∈ src.interfaces := by
  intro ikv h
  unfold mergeBR at h
  simp only at h
  exact foldSetdefault_sub _ _ ikv h

theorem mergeBR_WF (acc src : BorderRouter) (h : acc.WF) : (mergeBR acc src).WF := by
  rcases h with ⟨h1, h2, h3⟩
  exact ⟨foldSetdefault_nodup _ _ h1, foldSetdefault_nodup _ _ h2,
    foldSetdefault_nodup _ _ h3⟩

theorem mergeBR_ifaces_ne_nil (acc src : BorderRouter)
    (h : acc.interfaces ≠ [] ∨ src.interfaces ≠ []) :
    (mergeBR acc src).interfaces ≠ [] := by
  unfold mergeBR
  simp only
  exact foldSetdefault_ne_nil _ _ (Or.symm h)

theorem combineFold_sub (brs : Dict BorderRouter) (others : List String)
    (br0 : BorderRouter) :
    ∀ ikv ∈ (others.foldl
        (fun acc n =>
          match brs.lookup n with
          | some src => mergeBR acc src
          | none => acc)
        br0).interfaces,
      ikv ∈ br0.interfaces ∨ ∃ kv ∈ brs, ikv ∈ kv.2.interfaces := by
  induction others generalizing br0 with
  | nil => intro ikv h; exact Or.inl h
  | cons n rest ih =>
    intro ikv h
    rw [List.foldl_cons] at h
    rcases hl : brs.lookup n with _ | src <;> rw [hl] at h
    · exact ih br0 ikv h
    · rcases ih _ ikv h with h1 | h1
      · rcases mergeBR_ifaces_sub br0 src ikv h1 with h2 | h2
        · exact Or.inl h2
        · exact Or.inr ⟨(n, src), lookup_mem hl, h2⟩
      · exact Or.inr h1

theorem combineFold_WF (brs : Dict BorderRouter) (others : List String)
    (br0 : BorderRouter) (h : br0.WF) :
    (others.foldl
      (fun acc n =>
        match brs.lookup n with
        | some src => mergeBR acc src
        | none => acc)
      br0).WF := by
  induction others generalizing br0 with
  | nil => exact h
  | cons n rest ih =>
    rw [List.foldl_cons]
    rcases hl : brs.lookup n with _ | src
    · exact ih br0 h
    · exact ih _ (mergeBR_WF br0 src h)

theorem combineFold_ne_nil (brs : Dict BorderRouter) (others : List String)
    (br0 : BorderRouter) (h : br0.interfaces ≠ []) :
    (others.foldl
      (fun acc n =>
        match brs.lookup n with
        | some src => mergeBR acc src
        | none => acc)
      br0).interfaces ≠ [] := by
  induction others generalizing br0 with
  | nil => exact h
  | cons n rest ih =>
    rw [List.foldl_cons]
    rcases hl : brs.lookup n with _ | src
    · exact ih br0 h
    · exact ih _ (mergeBR_ifaces_ne_nil br0 src (Or.inl h))

theorem combineFold_ne_nil_of_mem (brs : Dict BorderRouter) (others : List String)
    (br0 : BorderRouter)
    (h : ∃ n ∈ others, ∃ src, brs.lookup n = some src ∧ src.interfaces ≠ []) :
    (others.foldl
      (fun acc n =>
        match brs.lookup n with
        | some src => mergeBR acc src
        | none => acc)
      br0).interfaces ≠ [] := by
  induction others generalizing br0 with
  | nil => rcases h with ⟨n, hn, _⟩; simp at hn
  | cons m rest ih =>
    rw [List.foldl_cons]
    rcases h with ⟨n, hn, src, hl, hne⟩
    rcases List.mem_cons.1 hn with h1 | h1
    · subst h1
      rw [hl]
      exact combineFold_ne_nil brs rest _ (mergeBR_ifaces_ne_nil br0 src (Or.inr hne))
    · rcases hl2 : brs.lookup m with _ | src2
      · exact ih br0 ⟨n, h1, src, hl, hne⟩
      · exact ih _ ⟨n, h1, src, hl, hne⟩

theorem mem_insertSorted (x : String) (l : List String) (a : String) :
    a ∈ insertSorted x l ↔ a = x ∨ a ∈ l := by
  induction l with
  | nil => simp [insertSorted]
  | cons y ys ih =>
    unfold insertSorted
    by_cases h : pyStrLe x y = true
    · simp [h]
    · rw [if_neg (by simpa using h)]
      rw [List.mem_cons, List.mem_cons, ih]
      tauto

theorem mem_sortedStrings (l : List String) (a : String) :
    a ∈ sortedStrings l ↔ a ∈ l := by
  induction l with
  | nil => simp [sortedStrings]
  | cons x xs ih =>
    unfold sortedStrings at ih ⊢
    rw [List.foldr_cons, mem_insertSorted, ih, List.mem_cons]

theorem combineMany_ifaces_sub (brs : Dict BorderRouter) (brname : String) :
    ∀ ikv ∈ (combineMany brs brname).interfaces, ∃ kv ∈ brs, ikv ∈ kv.2.interfaces := by
  intro ikv h
  unfold combineMany at h
  rcases combineFold_sub brs _ _ ikv h with h1 | h1
  · rcases hl : brs.lookup brname with _ | br <;> rw [hl] at h1
    · simp [_create_border_router] at h1
    · exact ⟨(brname, br), lookup_mem hl, by simpa using h1⟩
  · exact h1

theorem combineMany_WF (brs : Dict BorderRouter) (brname : String)
    (h : ∀ kv ∈ brs, kv.2.WF) : (combineMany brs brname).WF := by
  unfold combineMany
  apply combineFold_WF
  rcases hl : brs.lookup brname with _ | br
  · simp [_create_border_router, BorderRouter.WF, dictNodupKeys, dictKeys]
  · simpa using h _ (lookup_mem hl)

theorem combine_snd_sub (brs : Dict BorderRouter) (brname : String) :
    ∀ ikv ∈ (_combine_border_routers brs brname).2.interfaces,
      ∃ kv ∈ brs, ikv ∈ kv.2.interfaces := by
  rcases brs with _ | ⟨kv, rest⟩
  · intro ikv h
    exact combineMany_ifaces_sub [] brname ikv h
  · rcases rest with _ | ⟨kv2, rest2⟩
    · intro ikv h
      exact ⟨kv, by simp, h⟩
    · intro ikv h
      exact combineMany_ifaces_sub _ _ ikv h

theorem combine_snd_WF (brs : Dict BorderRouter) (brname : String)
    (h : ∀ kv ∈ brs, kv.2.WF) : (_combine_border_routers brs brname).2.WF := by
  rcases brs with _ | ⟨kv, rest⟩
  · exact combineMany_WF [] brname h
  · rcases rest with _ | ⟨kv2, rest2⟩
    · exact h kv (by simp)
    · exact combineMany_WF _ _ h

theorem combine_snd_empty (brs : Dict BorderRouter) (brname : String)
    (hne : ∀ kv ∈ brs, kv.2.interfaces ≠ [])
    (h : (_combine_border_routers brs brname).2.interfaces = []) :
    (_combine_border_routers brs brname).2 = _create_border_router := by
  rcases brs with _ | ⟨kv, rest⟩
  · rfl
  · rcases rest with _ | ⟨kv2, rest2⟩
    · exact absurd h (hne kv (by simp))
    · exfalso
      have h2 : (_combine_border_routers (kv :: kv2 :: rest2) brname).2
          = combineMany (kv :: kv2 :: rest2) brname := rfl
      rw [h2] at h
      unfold combineMany at h
      by_cases hb : brname ∈ dictKeys (kv :: kv2 :: rest2)
      · rcases hl : (kv :: kv2 :: rest2).lookup brname with _ | br
        · exact ((lookup_eq_none_iff _ _).1 hl) hb
        · rw [hl] at h
          simp only [Option.getD_some] at h
          exact combineFold_ne_nil _ _ _ (hne (brname, br) (lookup_mem hl)) h
      · rw [(lookup_eq_none_iff _ brname).2 hb] at h
        simp only [Option.getD_none] at h
        rcases hl : (kv :: kv2 :: rest2).lookup kv.1 with _ | src
        · exact ((lookup_eq_none_iff _ kv.1).1 hl) (by simp [dictKeys])
        · have hmem : kv.1 ∈ sortedStrings
              ((dictKeys (kv :: kv2 :: rest2)).dedup.filter fun n => !(n == brname)) := by
            rw [mem_sortedStrings, List.mem_filter]
            constructor
            · rw [List.mem_dedup]
              simp [dictKeys]
            · have hne2 : kv.1 ≠ brname := fun he => hb (he ▸ by simp [dictKeys])
              simpa using hne2
          exact combineFold_ne_nil_of_mem _ _ _
            ⟨kv.1, hmem, src, hl, hne _ (lookup_mem hl)⟩ h

/-! ## Lemmas about the connection loop -/

theorem connStep_skip (config : LocalConfig) (s : LoopState) (i : Nat) (conn : Conn)
    (h : conn.APBRID ≤ 10 ∨ toString conn.APBRID ∈ s.existing_ifids) :
    connStep config s i conn = { s with skipped := s.skipped ++ [i] } := by
  unfold connStep
  rw [if_pos h]

theorem connStep_accept (config : LocalConfig) (s : LoopState) (i : Nat) (conn : Conn)
    (h : ¬(conn.APBRID ≤ 10 ∨ toString conn.APBRID ∈ s.existing_ifids)) :
    connStep config s i conn =
      (let acc :=
        match s.openBR with
        | none => (s.closedBRs, _create_border_router)
        | some br =>
          if br.interfaces.length ≥ MAX_IFACES_IN_BR then
            (s.closedBRs ++ [br], _create_border_router)
          else
            (s.closedBRs, br)
      { existing_ifids := s.existing_ifids ++ [toString conn.APBRID]
        closedBRs := acc.1
        openBR := some (_insert_interface acc.2 conn.APBRID conn.ASID conn.UserIP
          conn.UserPort (if conn.IsVPN then VPN_ADDR else config.interface_ip)
          conn.APPort config.internal_ip)
        skipped := s.skipped }) := by
  unfold connStep
  rw [if_neg h]

theorem insert_interfaces_eq (br : BorderRouter) (if_id : Nat) (as_id : ISDAS)
    (as_ip : String) (as_port : Nat) (ap_ip : String) (ap_port : Nat) (internal_ip : String)
    (h : toString if_id ∉ dictKeys br.interfaces) :
    (_insert_interface br if_id as_id as_ip as_port ap_ip ap_port internal_ip).interfaces
      = br.interfaces ++ [(toString if_id, mkInterface as_id as_ip as_port ap_ip ap_port)] := by
  unfold _insert_interface
  exact dictSet_of_not_mem _ _ _ h

theorem insert_WF (br : BorderRouter) (if_id : Nat) (as_id : ISDAS) (as_ip : String)
    (as_port : Nat) (ap_ip : String) (ap_port : Nat) (internal_ip : String)
    (h : br.WF) :
    (_insert_interface br if_id as_id as_ip as_port ap_ip ap_port internal_ip).WF :=
  ⟨dictSetdefault_nodup _ _ _ h.1, dictSetdefault_nodup _ _ _ h.2.1,
    dictSet_nodup _ _ _ h.2.2⟩

theorem create_WF : _create_border_router.WF := by
  refine ⟨?_, ?_, ?_⟩ <;> simp [_create_border_router, dictNodupKeys, dictKeys]

theorem accept_state_inv (init : List String) (A : List Conn) (s : LoopState)
    (conn : Conn) (hA : conn ∈ A) (h10 : 10 < conn.APBRID)
    (hnotin : toString conn.APBRID ∉ s.existing_ifids)
    (CL : List BorderRouter) (B0 : BorderRouter) (ap_ip internal_ip : String)
    (hInv : LoopInv init A s)
    (hsplit : userIfids s
      = (CL.map fun br => dictKeys br.interfaces).flatten ++ dictKeys B0.interfaces)
    (hCLsub : ∀ br ∈ CL, br ∈ s.userBRs)
    (hB0 : B0 ∈ s.userBRs ∨ B0 = _create_border_router)
    (hlen : B0.interfaces.length + 1 ≤ MAX_IFACES_IN_BR) :
    LoopInv init A
      { existing_ifids := s.existing_ifids ++ [toString conn.APBRID]
        closedBRs := CL
        openBR := some (_insert_interface B0 conn.APBRID conn.ASID conn.UserIP
          conn.UserPort ap_ip conn.APPort internal_ip)
        skipped := s.skipped } := by
  rcases hInv with ⟨h1, h2, h3, h4, h5, h6⟩
  have hkeysB0 : ∀ x ∈ dictKeys B0.interfaces, x ∈ userIfids s := by
    intro x hx
    rw [hsplit]
    exact List.mem_append_right _ hx
  have hfresh : toString conn.APBRID ∉ dictKeys B0.interfaces := by
    intro hm
    exact hnotin (by rw [h1]; exact List.mem_append_right init (hkeysB0 _ hm))
  have hIfEq := insert_interfaces_eq B0 conn.APBRID conn.ASID conn.UserIP conn.UserPort
    ap_ip conn.APPort internal_ip hfresh
  have hB0WF : B0.WF := by
    rcases hB0 with hB0 | hB0
    · exact h5 B0 hB0
    · rw [hB0]; exact create_WF
  have hUBR : LoopState.userBRs
      { existing_ifids := s.existing_ifids ++ [toString conn.APBRID]
        closedBRs := CL
        openBR := some (_insert_interface B0 conn.APBRID conn.ASID conn.UserIP
          conn.UserPort ap_ip conn.APPort internal_ip)
        skipped := s.skipped }
      = CL ++ [_insert_interface B0 conn.APBRID conn.ASID conn.UserIP
          conn.UserPort ap_ip conn.APPort internal_ip] := rfl
  have hUI : userIfids
      { existing_ifids := s.existing_ifids ++ [toString conn.APBRID]
        closedBRs := CL
        openBR := some (_insert_interface B0 conn.APBRID conn.ASID conn.UserIP
          conn.UserPort ap_ip conn.APPort internal_ip)
        skipped := s.skipped }
      = userIfids s ++ [toString conn.APBRID] := by
    have hNBkeys : dictKeys (_insert_interface B0 conn.APBRID conn.ASID conn.UserIP
        conn.UserPort ap_ip conn.APPort internal_ip).interfaces
        = dictKeys B0.interfaces ++ [toString conn.APBRID] := by
      rw [hIfEq, dictKeys_append]
      rfl
    have e1 : userIfids
        { existing_ifids := s.existing_ifids ++ [toString conn.APBRID]
          closedBRs := CL
          openBR := some (_insert_interface B0 conn.APBRID conn.ASID conn.UserIP
            conn.UserPort ap_ip conn.APPort internal_ip)
          skipped := s.skipped }
        = ((CL ++ [_insert_interface B0 conn.APBRID conn.ASID conn.UserIP
            conn.UserPort ap_ip conn.APPort internal_ip]).map
              fun br => dictKeys br.interfaces).flatten := by
      unfold userIfids
      rw [hUBR]
    rw [e1, List.map_append, List.flatten_append, hsplit]
    simp only [List.map_cons, List.map_nil, List.flatten_cons, List.flatten_nil,
      List.append_nil, hNBkeys]
    rw [List.append_assoc]
  refine ⟨?_, ?_, ?_, ?_, ?_, ?_⟩
  · show s.existing_ifids ++ [toString conn.APBRID] = init ++ _
    rw [hUI, h1, List.append_assoc]
  · intro hin
    exact nodup_append_singleton (h2 hin) hnotin
  · intro br2 hbr2
    rw [hUBR] at hbr2
    rcases List.mem_append.1 hbr2 with hm | hm
    · exact h3 br2 (hCLsub br2 hm)
    · rw [List.mem_singleton] at hm
      subst hm
      show (_insert_interface B0 conn.APBRID conn.ASID conn.UserIP
        conn.UserPort ap_ip conn.APPort internal_ip).interfaces.length ≤ MAX_IFACES_IN_BR
      rw [hIfEq, List.length_append]
      simpa using hlen
  · intro id hid
    rw [hUI] at hid
    rcases List.mem_append.1 hid with hm | hm
    · exact h4 id hm
    · rw [List.mem_singleton] at hm
      exact ⟨conn.APBRID, h10, hm⟩
  · intro br2 hbr2
    rw [hUBR] at hbr2
    rcases List.mem_append.1 hbr2 with hm | hm
    · exact h5 br2 (hCLsub br2 hm)
    · rw [List.mem_singleton] at hm
      subst hm
      exact insert_WF _ _ _ _ _ _ _ _ hB0WF
  · intro br2 hbr2 ikv hikv
    rw [hUBR] at hbr2
    rcases List.mem_append.1 hbr2 with hm | hm
    · exact h6 br2 (hCLsub br2 hm) ikv hikv
    · rw [List.mem_singleton] at hm
      subst hm
      rw [hIfEq] at hikv
      rcases List.mem_append.1 hikv with hm2 | hm2
      · rcases hB0 with hB0 | hB0
        · exact h6 B0 hB0 ikv hm2
        · rw [hB0] at hm2
          simp [_create_border_router] at hm2
      · rw [List.mem_singleton] at hm2
        subst hm2
        exact ⟨rfl, conn, hA, rfl⟩

theorem connStep_inv (config : LocalConfig) (A : List Conn) (init : List String)
    (i : Nat) (conn : Conn) (hA : conn ∈ A) (s : LoopState) (h : LoopInv init A s) :
    LoopInv init A (connStep config s i conn) := by
  by_cases hc : conn.APBRID ≤ 10 ∨ toString conn.APBRID ∈ s.existing_ifids
  · rw [connStep_skip config s i conn hc]
    rcases h with ⟨h1, h2, h3, h4, h5, h6⟩
    exact ⟨h1, h2, h3, h4, h5, h6⟩
  · rw [connStep_accept config s i conn hc]
    push_neg at hc
    rcases hc with ⟨h10, hnotin⟩
    rcases ho : s.openBR with _ | br
    · exact accept_state_inv init A s conn hA h10 hnotin s.closedBRs
        _create_border_router _ _ h
        (by simp [userIfids, LoopState.userBRs, ho, _create_border_router, dictKeys])
        (fun br2 hm => by simp [LoopState.userBRs, hm])
        (Or.inr rfl)
        (by simp [_create_border_router, MAX_IFACES_IN_BR])
    · by_cases hfull : br.interfaces.length ≥ MAX_IFACES_IN_BR
      · simp only [hfull, if_pos]
        exact accept_state_inv init A s conn hA h10 hnotin (s.closedBRs ++ [br])
          _create_border_router _ _ h
          (by simp [userIfids, LoopState.userBRs, ho, _create_border_router, dictKeys])
          (fun br2 hm => by simp [LoopState.userBRs, ho]; simpa using hm)
          (Or.inr rfl)
          (by simp [_create_border_router, MAX_IFACES_IN_BR])
      · simp only [hfull, if_neg, if_false]
        exact accept_state_inv init A s conn hA h10 hnotin s.closedBRs br _ _ h
          (by simp [userIfids, LoopState.userBRs, ho])
          (fun br2 hm => by simp [LoopState.userBRs, hm])
          (Or.inl (by simp [LoopState.userBRs, ho]))
          (by unfold MAX_IFACES_IN_BR at hfull ⊢; omega)

theorem loopInv_init (my_asid : String) (tp : Topo) (A : List Conn) :
    LoopInv (dictKeys (infraBR my_asid tp).interfaces) A (initLoopState my_asid tp) := by
  refine ⟨by simp [initLoopState, userIfids, LoopState.userBRs], fun h => h, ?_, ?_, ?_, ?_⟩
  · intro br hbr
    simp [initLoopState, LoopState.userBRs] at hbr
  · intro id hid
    simp [initLoopState, userIfids, LoopState.userBRs] at hid
  · intro br hbr
    simp [initLoopState, LoopState.userBRs] at hbr
  · intro br hbr
    simp [initLoopState, LoopState.userBRs] at hbr

theorem runLoop_inv (config : LocalConfig) (A : List Conn) (init : List String)
    (l : List (Nat × Conn)) (hA : ∀ ic ∈ l, ic.2 ∈ A) (s : LoopState)
    (h : LoopInv init A s) : LoopInv init A (runLoop config l s) := by
  induction l generalizing s with
  | nil => exact h
  | cons ic rest ih =>
    exact ih (fun x hx => hA x (List.mem_cons_of_mem _ hx)) _
      (connStep_inv config A init ic.1 ic.2 (hA ic (List.mem_cons_self _ _)) s h)

theorem runLoop_skipped_append (config : LocalConfig) (l : List (Nat × Conn))
    (s : LoopState) : ∃ t, (runLoop config l s).skipped = s.skipped ++ t := by
  induction l generalizing s with
  | nil => exact ⟨[], by simp [runLoop]⟩
  | cons ic rest ih =>
    have hstep : ∃ u, (connStep config s ic.1 ic.2).skipped = s.skipped ++ u := by
      by_cases hc : ic.2.APBRID ≤ 10 ∨ toString ic.2.APBRID ∈ s.existing_ifids
      · exact ⟨[ic.1], by rw [connStep_skip config s ic.1 ic.2 hc]⟩
      · exact ⟨[], by rw [connStep_accept config s ic.1 ic.2 hc]; simp⟩
    rcases hstep with ⟨u, hu⟩
    rcases ih (connStep config s ic.1 ic.2) with ⟨t, ht⟩
    refine ⟨u ++ t, ?_⟩
    show (runLoop config rest (connStep config s ic.1 ic.2)).skipped = _
    rw [ht, hu, List.append_assoc]

theorem runLoop_skip_mem (config : LocalConfig) (l : List (Nat × Conn)) (s : LoopState) :
    ∀ ic ∈ l, ic.2.APBRID ≤ 10 → ic.1 ∈ (runLoop config l s).skipped := by
  induction l generalizing s with
  | nil => intro ic h; simp at h
  | cons jc rest ih =>
    intro ic hic hle
    rcases List.mem_cons.1 hic with h1 | h1
    · subst h1
      have hmem : ic.1 ∈ (connStep config s ic.1 ic.2).skipped := by
        rw [connStep_skip config s ic.1 ic.2 (Or.inl hle)]
        simp
      rcases runLoop_skipped_append config rest (connStep config s ic.1 ic.2) with ⟨t, ht⟩
      show ic.1 ∈ (runLoop config rest (connStep config s ic.1 ic.2)).skipped
      rw [ht]
      exact List.mem_append_left _ hmem
    · exact ih (connStep config s jc.1 jc.2) ic h1 hle

theorem runLoop_skipped_nodup (config : LocalConfig) (l : List (Nat × Conn))
    (s : LoopState) (h : (s.skipped ++ l.map Prod.fst).Nodup) :
    (runLoop config l s).skipped.Nodup
    ∧ ∀ j ∈ (runLoop config l s).skipped, j ∈ s.skipped ++ l.map Prod.fst := by
  induction l generalizing s with
  | nil =>
    constructor
    · simpa using h
    · intro j hj
      simpa using hj
  | cons ic rest ih =>
    by_cases hc : ic.2.APBRID ≤ 10 ∨ toString ic.2.APBRID ∈ s.existing_ifids
    · have hstep := connStep_skip config s ic.1 ic.2 hc
      have hper : (connStep config s ic.1 ic.2).skipped ++ rest.map Prod.fst
          = s.skipped ++ (ic :: rest).map Prod.fst := by
        rw [hstep]
        simp [List.append_assoc]
      have hres := ih (connStep config s ic.1 ic.2) (by rw [hper]; exact h)
      refine ⟨hres.1, ?_⟩
      intro j hj
      have := hres.2 j hj
      rw [hper] at this
      exact this
    · have hstep : (connStep config s ic.1 ic.2).skipped = s.skipped := by
        rw [connStep_accept config s ic.1 ic.2 hc]
      have hsub : ((connStep config s ic.1 ic.2).skipped ++ rest.map Prod.fst).Sublist
          (s.skipped ++ (ic :: rest).map Prod.fst) := by
        rw [hstep]
        simp only [List.map_cons]
        exact List.Sublist.append_left (List.sublist_cons_self _ _) s.skipped
      have hres := ih (connStep config s ic.1 ic.2) (hsub.nodup h)
      refine ⟨hres.1, ?_⟩
      intro j hj
      have := hres.2 j hj
      exact (hsub.subset) this

/-! ## Structure of the produced BorderRouters section -/

theorem placeUserBRs_eq (my_asid : String) (ubrs : List BorderRouter) (k : Nat)
    (d : Dict BorderRouter)
    (hd : ∀ n ∈ dictKeys d, ∀ i, k ≤ i → n ≠ brName my_asid (i + 11)) :
    placeUserBRs my_asid k ubrs d
      = d ++ ((List.enumFrom k ubrs).map fun ib => (brName my_asid (ib.1 + 11), ib.2)) := by
  induction ubrs generalizing k d with
  | nil => simp [placeUserBRs]
  | cons b rest ih =>
    unfold placeUserBRs
    rw [List.enumFrom_cons, List.foldl_cons]
    have hfresh : brName my_asid (k + 11) ∉ dictKeys d := by
      intro hm
      exact hd _ hm k (Nat.le_refl k) rfl
    rw [dictSet_of_not_mem d _ b hfresh]
    have hd2 : ∀ n ∈ dictKeys (d ++ [(brName my_asid (k + 11), b)]), ∀ i, k + 1 ≤ i →
        n ≠ brName my_asid (i + 11) := by
      intro n hn i hi
      rw [dictKeys_append] at hn
      rcases List.mem_append.1 hn with h1 | h1
      · exact hd n h1 i (Nat.le_of_succ_le hi)
      · have hn2 : n = brName my_asid (k + 11) := by simpa [dictKeys] using h1
        subst hn2
        intro he
        have := brName_inj he
        omega
    have hih := ih (k + 1) (d ++ [(brName my_asid (k + 11), b)]) hd2
    unfold placeUserBRs at hih
    rw [hih]
    simp [List.append_assoc]

theorem newBRs_eq (config : LocalConfig) (my_asid : String) (tp : Topo)
    (conns : List Conn) :
    newBRs config my_asid tp conns
      = (brName my_asid 1, infraBR my_asid tp)
        :: ((finalLoopState config my_asid tp conns).userBRs.enum.map
            fun ib => (brName my_asid (ib.1 + 11), ib.2)) := by
  unfold newBRs
  rw [combine_fst]
  have hd : ∀ n ∈ dictKeys [(brName my_asid 1,
      (_combine_border_routers (_remove_child_interfaces tp).borderRouters
        (brName my_asid 1)).2)], ∀ i, 0 ≤ i → n ≠ brName my_asid (i + 11) := by
    intro n hn i _
    have hn2 : n = brName my_asid 1 := by simpa [dictKeys] using hn
    subst hn2
    intro he
    have := brName_inj he
    omega
  rw [placeUserBRs_eq my_asid _ 0 _ hd]
  rfl

theorem brNameIdx_injective (my_asid : String) :
    Function.Injective fun i : Nat => brName my_asid (i + 11) := by
  intro i j h
  have := brName_inj h
  omega

theorem newBRs_keys_nodup (config : LocalConfig) (my_asid : String) (tp : Topo)
    (conns : List Conn) : dictNodupKeys (newBRs config my_asid tp conns) := by
  rw [newBRs_eq]
  unfold dictNodupKeys dictKeys
  simp only [List.map_cons, List.map_map]
  rw [List.nodup_cons]
  constructor
  · intro hm
    rcases List.mem_map.1 hm with ⟨ib, _, he⟩
    have : brName my_asid (ib.1 + 11) = brName my_asid 1 := he
    have := brName_inj this
    omega
  · have hcomp : (Prod.fst ∘ fun ib : Nat × BorderRouter => (brName my_asid (ib.1 + 11), ib.2))
        = (fun i : Nat => brName my_asid (i + 11)) ∘ Prod.fst := rfl
    rw [hcomp, ← List.map_map, List.enum_map_fst]
    exact (List.nodup_range _).map (brNameIdx_injective my_asid)

theorem finalLoopState_inv (config : LocalConfig) (my_asid : String) (tp : Topo)
    (conns : List Conn) :
    LoopInv (dictKeys (infraBR my_asid tp).interfaces) conns
      (finalLoopState config my_asid tp conns) := by
  unfold finalLoopState
  apply runLoop_inv
  · intro ic hic
    have : ic.2 ∈ conns.enum.map Prod.snd := List.mem_map_of_mem Prod.snd hic
    rwa [List.enum_map_snd] at this
  · exact loopInv_init my_asid tp conns

theorem newBRs_values_WF (config : LocalConfig) (my_asid : String) (tp : Topo)
    (conns : List Conn) (h : tp.WF) :
    ∀ kv ∈ newBRs config my_asid tp conns, kv.2.WF := by
  rw [newBRs_eq]
  intro kv hkv
  rcases List.mem_cons.1 hkv with h1 | h1
  · rw [h1]
    exact combine_snd_WF _ _ (prune_WF tp h).2
  · rcases List.mem_map.1 h1 with ⟨ib, hib, he⟩
    rw [← he]
    have hmem : ib.2 ∈ (finalLoopState config my_asid tp conns).userBRs := by
      have : ib.2 ∈ (finalLoopState config my_asid tp conns).userBRs.enum.map Prod.snd :=
        List.mem_map_of_mem Prod.snd hib
      rwa [List.enum_map_snd] at this
    exact (finalLoopState_inv config my_asid tp conns).2.2.2.2.1 ib.2 hmem

/-! ## Claim C3: the infrastructure AS range -/

/-- C3 (amended): `asid_is_infrastructure n` holds if and only if `n` lies
in the open interval `(0xffaa00000000, 0xffaa00010000)`: both bounds are
strict, so `0xffaa00000000` itself is not classified as infrastructure. -/
theorem C3_infrastructure_range (n : Nat) :
    asid_is_infrastructure n = true ↔ 0xffaa00000000 < n ∧ n < 0xffaa00010000 := by
  simp [asid_is_infrastructure]

/-- C3 counterexample: the claim says the range is the half-open interval
including the lower endpoint; the code classifies `0xffaa00000000` as not
infrastructure, and a `CHILD` interface towards that AS number is pruned
rather than exempted. -/
theorem C3_counterexample :
    asid_is_infrastructure 0xffaa00000000 = false
    ∧ _remove_child_interfaces
        { borderRouters := [("br1-x-1",
          { internalAddrs := [("IPv4", { addr := "127.0.0.1", overlayPort := 31069 })]
            ctrlAddr := [("IPv4", { addr := "127.0.0.1", l4Port := 30069 })]
            interfaces := [("12",
              { overlay := "UDP/IPv4"
                isd_as := { isd := 1, asn := 0xffaa00000000 }
                linkTo := "CHILD"
                bandwidth := 1000
                mtu := 1472
                remoteOverlay := { addr := "10.0.8.2", overlayPort := 50000 }
                publicOverlay := { addr := "192.0.2.1", overlayPort := 50021 } })] })] }
      = { borderRouters := [] } := by
  exact ⟨by decide, by decide⟩

/-! ## Claim C9: pruning is idempotent -/

theorem generic_filter_map_idem {α : Type} (f : α → α) (p : α → Bool) (l : List α)
    (hff : ∀ x, f (f x) = f x) :
    ((((l.map f).filter p).map f).filter p) = (l.map f).filter p := by
  have h1 : ((l.map f).filter p).map f = (l.map f).filter p := by
    have hid : ∀ y ∈ (l.map f).filter p, f y = id y := by
      intro y hy
      rcases List.mem_map.1 (List.mem_of_mem_filter hy) with ⟨x, _, he⟩
      rw [← he, hff]
      rfl
    rw [List.map_congr_left hid, List.map_id]
  rw [h1, List.filter_filter]
  apply List.filter_congr
  intro a _
  rw [Bool.and_self]

/-- C9: the child-link pruning pass is idempotent: applying
`_remove_child_interfaces` twice yields the same topology as applying it
once, including the deletion of routers left with zero interfaces. -/
theorem C9_prune_idempotent (tp : Topo) :
    _remove_child_interfaces (_remove_child_interfaces tp) = _remove_child_interfaces tp := by
  unfold _remove_child_interfaces
  simp only
  congr 1
  apply generic_filter_map_idem
  intro kv
  simp only [List.filter_filter]
  have : (fun (ikv : String × Interface) =>
        !pruneCondition ikv.2 && !pruneCondition ikv.2)
      = fun ikv => !pruneCondition ikv.2 := by
    funext ikv
    rw [Bool.and_self]
  rw [this]

/-! ## Claim C5: user-router capacity -/

/-- C5: no user border router produced by a reconciliation pass holds more
than `MAX_IFACES_IN_BR` (12) interfaces. -/
theorem C5_user_router_capacity (config : LocalConfig) (my_asid : String) (tp : Topo)
    (conns : List Conn) :
    ∀ br ∈ (fullsync_local_gen_core config my_asid tp conns).userBRs,
      br.interfaces.length ≤ MAX_IFACES_IN_BR := by
  intro br hbr
  exact (finalLoopState_inv config my_asid tp conns).2.2.1 br hbr

/-- Witness for C5 at a concrete run: empty topology, one accepted
connection. -/
theorem C5_user_router_capacity_witness :
    ((fullsync_local_gen_core { interface_ip := "192.0.2.1", internal_ip := "10.0.0.2" }
        "1-x" { borderRouters := [] }
        [{ ASID := { isd := 1, asn := 2 }, UserIP := "1.2.3.4", UserPort := 50000,
           APPort := 50021, APBRID := 20, IsVPN := false,
           VPNUserID := "" }]).userBRs.getD 0 _create_border_router).interfaces.length
      ≤ MAX_IFACES_IN_BR :=
  C5_user_router_capacity { interface_ip := "192.0.2.1", internal_ip := "10.0.0.2" }
    "1-x" { borderRouters := [] }
    [{ ASID := { isd := 1, asn := 2 }, UserIP := "1.2.3.4", UserPort := 50000,
       APPort := 50021, APBRID := 20, IsVPN := false, VPNUserID := "" }]
    _ (by decide)

/-! ## Claim C6: reserved interface ids are never accepted -/

/-- C6: a connection whose requested interface id is at most 10 is always
skipped, and no user router of the output holds an interface under that
id. -/
theorem C6_reserved_ids (config : LocalConfig) (my_asid : String) (tp : Topo)
    (conns : List Conn) :
    ∀ ic ∈ conns.enum, ic.2.APBRID ≤ 10 →
      ic.1 ∈ (fullsync_local_gen_core config my_asid tp conns).skipped
      ∧ ∀ br ∈ (fullsync_local_gen_core config my_asid tp conns).userBRs,
          toString ic.2.APBRID ∉ dictKeys br.interfaces := by
  intro ic hic hle
  constructor
  · exact runLoop_skip_mem config conns.enum _ ic hic hle
  · intro br hbr hmem
    have hin : toString ic.2.APBRID ∈ userIfids (finalLoopState config my_asid tp conns) :=
      List.mem_flatten.2 ⟨dictKeys br.interfaces,
        List.mem_map_of_mem (fun br => dictKeys br.interfaces) hbr, hmem⟩
    rcases (finalLoopState_inv config my_asid tp conns).2.2.2.1 _ hin with ⟨k, hk, he⟩
    have := natToString_inj he
    omega

/-- Witness for C6 at a concrete run: one reserved-id connection (id 5). -/
theorem C6_reserved_ids_witness :
    0 ∈ (fullsync_local_gen_core { interface_ip := "192.0.2.1", internal_ip := "10.0.0.2" }
        "1-x" { borderRouters := [] }
        [{ ASID := { isd := 1, asn := 2 }, UserIP := "1.2.3.4", UserPort := 50000,
           APPort := 50021, APBRID := 5, IsVPN := false, VPNUserID := "" }]).skipped
    ∧ ∀ br ∈ (fullsync_local_gen_core { interface_ip := "192.0.2.1", internal_ip := "10.0.0.2" }
        "1-x" { borderRouters := [] }
        [{ ASID := { isd := 1, asn := 2 }, UserIP := "1.2.3.4", UserPort := 50000,
           APPort := 50021, APBRID := 5, IsVPN := false, VPNUserID := "" }]).userBRs,
        toString (5 : Nat) ∉ dictKeys br.interfaces :=
  C6_reserved_ids _ _ _ _
    (0, { ASID := { isd := 1, asn := 2 }, UserIP := "1.2.3.4", UserPort := 50000,
          APPort := 50021, APBRID := 5, IsVPN := false, VPNUserID := "" })
    (by decide) (by decide)

/-! ## Claim C10: empty prune result yields a fresh empty infrastructure router -/

/-- C10: when pruning leaves zero border routers, the output topology is
the fresh infrastructure router `br{asid}-1` with the three empty sections
(`_create_border_router`), followed by the user routers. -/
theorem C10_fresh_infra_router (config : LocalConfig) (my_asid : String) (tp : Topo)
    (conns : List Conn) (h : (_remove_child_interfaces tp).borderRouters = []) :
    (fullsync_local_gen_core config my_asid tp conns).new_tp.borderRouters
      = (brName my_asid 1, _create_border_router)
        :: ((fullsync_local_gen_core config my_asid tp conns).userBRs.enum.map
            fun ib => (brName my_asid (ib.1 + 11), ib.2)) := by
  have hB : infraBR my_asid tp = _create_border_router := by
    unfold infraBR
    rw [h]
    rfl
  show newBRs config my_asid tp conns = _
  rw [newBRs_eq, hB]
  rfl

/-- Witness for C10: empty topology and one accepted connection. -/
theorem C10_fresh_infra_router_witness :
    (fullsync_local_gen_core { interface_ip := "192.0.2.1", internal_ip := "10.0.0.2" }
        "1-x" { borderRouters := [] }
        [{ ASID := { isd := 1, asn := 2 }, UserIP := "1.2.3.4", UserPort := 50000,
           APPort := 50021, APBRID := 20, IsVPN := false,
           VPNUserID := "" }]).new_tp.borderRouters
      = (brName "1-x" 1, _create_border_router)
        :: ((fullsync_local_gen_core { interface_ip := "192.0.2.1", internal_ip := "10.0.0.2" }
            "1-x" { borderRouters := [] }
            [{ ASID := { isd := 1, asn := 2 }, UserIP := "1.2.3.4", UserPort := 50000,
               APPort := 50021, APBRID := 20, IsVPN := false,
               VPNUserID := "" }]).userBRs.enum.map
            fun ib => (brName "1-x" (ib.1 + 11), ib.2)) :=
  C10_fresh_infra_router _ _ _ _ (by decide)

/-! ## Claim C7: accepted plus skipped equals received -/

theorem filterMap_skip_eq (l : List (Nat × Conn)) (S : List Nat) :
    (l.filterMap fun ic => if ic.1 ∈ S then none else some ic.2)
      = (l.filter fun ic => decide (ic.1 ∉ S)).map Prod.snd := by
  induction l with
  | nil => rfl
  | cons x xs ih =>
    by_cases hx : x.1 ∈ S
    · simp [List.filterMap_cons, List.filter_cons, hx, ih]
    · simp [List.filterMap_cons, List.filter_cons, hx, ih]

theorem countP_mem_range (S : List Nat) (n : Nat) (hS : S.Nodup)
    (hsub : ∀ j ∈ S, j ∈ List.range n) :
    (List.range n).countP (fun i => decide (i ∈ S)) = S.length := by
  rw [List.countP_eq_length_filter]
  have hperm : ((List.range n).filter fun i => decide (i ∈ S)).Perm S := by
    rw [List.perm_ext_iff_of_nodup ((List.nodup_range n).filter _) hS]
    intro a
    rw [List.mem_filter]
    constructor
    · rintro ⟨_, ha⟩
      simpa using ha
    · intro ha
      exact ⟨hsub a ha, by simpa using ha⟩
  exact hperm.length_eq

theorem skipped_facts (config : LocalConfig) (my_asid : String) (tp : Topo)
    (conns : List Conn) :
    (finalLoopState config my_asid tp conns).skipped.Nodup
    ∧ ∀ j ∈ (finalLoopState config my_asid tp conns).skipped,
        j ∈ List.range conns.length := by
  have hprops := runLoop_skipped_nodup config conns.enum (initLoopState my_asid tp)
    (by
      show (([] : List Nat) ++ conns.enum.map Prod.fst).Nodup
      rw [List.nil_append, List.enum_map_fst]
      exact List.nodup_range _)
  refine ⟨hprops.1, ?_⟩
  intro j hj
  have hmem := hprops.2 j hj
  simp only [initLoopState] at hmem
  rw [List.nil_append, List.enum_map_fst] at hmem
  exact hmem

/-- C7: the filtered connection list plus the skip list exactly partition
the received batch: their lengths add up to the input length, and the
acknowledged connections are precisely the non-skipped input connections
in their original order. -/
theorem C7_partition (config : LocalConfig) (my_asid : String) (tp : Topo)
    (conns : List Conn) :
    (fullsync_local_gen_core config my_asid tp conns).connections.length
      + (fullsync_local_gen_core config my_asid tp conns).skipped.length
      = conns.length
    ∧ (fullsync_local_gen_core config my_asid tp conns).connections
      = ((conns.enum.filter fun ic =>
          decide (ic.1 ∉ (fullsync_local_gen_core config my_asid tp conns).skipped)).map
            Prod.snd) := by
  have hfacts := skipped_facts config my_asid tp conns
  have hkept : (fullsync_local_gen_core config my_asid tp conns).connections
      = ((conns.enum.filter fun ic =>
          decide (ic.1 ∉ (finalLoopState config my_asid tp conns).skipped)).map
            Prod.snd) :=
    filterMap_skip_eq conns.enum (finalLoopState config my_asid tp conns).skipped
  refine ⟨?_, hkept⟩
  rw [hkept, List.length_map, ← List.countP_eq_length_filter]
  have hskip : (finalLoopState config my_asid tp conns).skipped.length
      = conns.enum.countP
          (fun ic => decide (ic.1 ∈ (finalLoopState config my_asid tp conns).skipped)) := by
    have hcomp : (fun ic : Nat × Conn =>
          decide (ic.1 ∈ (finalLoopState config my_asid tp conns).skipped))
        = ((fun i : Nat => decide (i ∈ (finalLoopState config my_asid tp conns).skipped))
            ∘ Prod.fst) := rfl
    rw [hcomp, ← List.countP_map, List.enum_map_fst,
      countP_mem_range _ _ hfacts.1 hfacts.2]
  have htot := List.length_eq_countP_add_countP
    (fun ic : Nat × Conn => decide (ic.1 ∈ (finalLoopState config my_asid tp conns).skipped))
    conns.enum
  rw [List.enum_length] at htot
  have hcong : conns.enum.countP
      (fun a => decide (¬(decide (a.1 ∈ (finalLoopState config my_asid tp conns).skipped)
          = true)))
      = conns.enum.countP
        (fun ic => decide (ic.1 ∉ (finalLoopState config my_asid tp conns).skipped)) := by
    apply List.countP_congr
    intro a _
    by_cases ha : a.1 ∈ (finalLoopState config my_asid tp conns).skipped <;> simp [ha]
  rw [hcong] at htot
  have hrfl : (fullsync_local_gen_core config my_asid tp conns).skipped
      = (finalLoopState config my_asid tp conns).skipped := rfl
  rw [hrfl]
  omega

/-! ## Claim C4: interface ids are globally unique in the output -/

theorem newBRs_ifids_flatten (config : LocalConfig) (my_asid : String) (tp : Topo)
    (conns : List Conn) :
    ((newBRs config my_asid tp conns).map fun kv => dictKeys kv.2.interfaces).flatten
      = dictKeys (infraBR my_asid tp).interfaces
        ++ userIfids (finalLoopState config my_asid tp conns) := by
  rw [newBRs_eq]
  simp only [List.map_cons, List.flatten_cons, List.map_map]
  congr 1
  unfold userIfids
  congr 1
  have hcomp : ((fun kv : String × BorderRouter => dictKeys kv.2.interfaces)
        ∘ fun ib : Nat × BorderRouter => (brName my_asid (ib.1 + 11), ib.2))
      = (fun br : BorderRouter => dictKeys br.interfaces) ∘ Prod.snd := rfl
  rw [hcomp, ← List.map_map, List.enum_map_snd]

/-- C4: in the output topology of a reconciliation pass over a well-formed
input topology, every interface id occurs at most once across all border
routers. -/
theorem C4_unique_ifids (config : LocalConfig) (my_asid : String) (tp : Topo)
    (conns : List Conn) (h : tp.WF) :
    (((fullsync_local_gen_core config my_asid tp conns).new_tp.borderRouters.map
      fun kv => dictKeys kv.2.interfaces).flatten).Nodup := by
  have hInv := finalLoopState_inv config my_asid tp conns
  have hBwf : (infraBR my_asid tp).WF := combine_snd_WF _ _ (prune_WF tp h).2
  have hNodup := hInv.2.1 hBwf.2.2
  rw [hInv.1] at hNodup
  show (((newBRs config my_asid tp conns).map fun kv => dictKeys kv.2.interfaces).flatten).Nodup
  rw [newBRs_ifids_flatten]
  exact hNodup

/-- Witness for C4: topology with one infrastructure interface (id 5) plus
two accepted connections. -/
theorem C4_unique_ifids_witness :
    (((fullsync_local_gen_core { interface_ip := "192.0.2.1", internal_ip := "10.0.0.2" }
        "1-x"
        { borderRouters := [("br1-x-1",
          { internalAddrs := [("IPv4", { addr := "10.0.0.2", overlayPort := 31069 })]
            ctrlAddr := [("IPv4", { addr := "10.0.0.2", l4Port := 30069 })]
            interfaces := [("5",
              { overlay := "UDP/IPv4"
                isd_as := { isd := 1, asn := 0xffaa00000001 }
                linkTo := "PARENT"
                bandwidth := 1000
                mtu := 1472
                remoteOverlay := { addr := "9.9.9.9", overlayPort := 40000 }
                publicOverlay := { addr := "8.8.8.8", overlayPort := 40001 } })] })] }
        [{ ASID := { isd := 1, asn := 2 }, UserIP := "1.2.3.4", UserPort := 50000,
           APPort := 50021, APBRID := 20, IsVPN := false, VPNUserID := "" },
         { ASID := { isd := 1, asn := 3 }, UserIP := "1.2.3.5", UserPort := 50000,
           APPort := 50022, APBRID := 21, IsVPN := false,
           VPNUserID := "" }]).new_tp.borderRouters.map
      fun kv => dictKeys kv.2.interfaces).flatten).Nodup :=
  C4_unique_ifids { interface_ip := "192.0.2.1", internal_ip := "10.0.0.2" }
    "1-x"
    { borderRouters := [("br1-x-1",
      { internalAddrs := [("IPv4", { addr := "10.0.0.2", overlayPort := 31069 })]
        ctrlAddr := [("IPv4", { addr := "10.0.0.2", l4Port := 30069 })]
        interfaces := [("5",
          { overlay := "UDP/IPv4"
            isd_as := { isd := 1, asn := 0xffaa00000001 }
            linkTo := "PARENT"
            bandwidth := 1000
            mtu := 1472
            remoteOverlay := { addr := "9.9.9.9", overlayPort := 40000 }
            publicOverlay := { addr := "8.8.8.8", overlayPort := 40001 } })] })] }
    [{ ASID := { isd := 1, asn := 2 }, UserIP := "1.2.3.4", UserPort := 50000,
       APPort := 50021, APBRID := 20, IsVPN := false, VPNUserID := "" },
     { ASID := { isd := 1, asn := 3 }, UserIP := "1.2.3.5", UserPort := 50000,
       APPort := 50022, APBRID := 21, IsVPN := false, VPNUserID := "" }]
    (by decide)

/-! ## Claim C1: a failing acknowledgment crashes the run -/

/-- C1 (code bug): whenever the acknowledgment message is non-empty (at
least one AS was processed) and `reply_fullsync` raises, the `except`
handler on lines 172 and 173 swallows the exception, but line 174 then
reads the local variable `response`, which was never assigned, so
`fullsync_local_gen` terminates with an uncaught `UnboundLocalError`
instead of returning its changed verdict. -/
theorem C1_ack_failure_crashes (k : String) (v : SyncStatus) (rest : Dict SyncStatus)
    (topoHasChanged : Bool) :
    ack_epilogue ((k, v) :: rest) ReplyOutcome.raised topoHasChanged
      = Except.error
          "UnboundLocalError: local variable response referenced before assignment" := rfl

/-! ## Claim C2: marker-file lifecycle of the monitoring remap -/

/-- C2 (amended): provided the mapping computation succeeds, the marker
file is deleted if and only if the `requests.put` call completes without
raising, regardless of the HTTP status code; on a completed call the
returned flag is `resp.ok`. -/
theorem C2_marker_iff (promPortOffset : Nat) (tp : Topo) (put : PutOutcome)
    (h : ∃ ms, computeMappings promPortOffset tp.borderRouters = Except.ok ms) :
    ((_reset_monitoring promPortOffset tp put).markerPresent = false
      ↔ ∃ status, put = PutOutcome.responded status)
    ∧ ∀ status, put = PutOutcome.responded status →
        (_reset_monitoring promPortOffset tp put).outcome = Except.ok (respOk status) := by
  rcases h with ⟨ms, hms⟩
  unfold _reset_monitoring
  rw [hms]
  rcases put with _ | status
  · constructor
    · constructor
      · intro h2
        simp at h2
      · rintro ⟨status, hs⟩
        exact PutOutcome.noConfusion hs
    · intro status hs
      exact PutOutcome.noConfusion hs
  · constructor
    · constructor
      · intro _
        exact ⟨status, rfl⟩
      · intro _
        rfl
    · intro status2 hs
      injection hs with h2
      rw [h2]

/-- Witness for C2 (amended) at a concrete topology and a completed
request with status 500. -/
theorem C2_marker_iff_witness :
    ((_reset_monitoring 5000
        { borderRouters := [("br1-x-1",
          { internalAddrs := [("IPv4", { addr := "10.0.0.2", overlayPort := 31069 })]
            ctrlAddr := [("IPv4", { addr := "10.0.0.2", l4Port := 30069 })]
            interfaces := [] })] }
        (PutOutcome.responded 500)).markerPresent = false
      ↔ ∃ status, PutOutcome.responded 500 = PutOutcome.responded status)
    ∧ ∀ status, PutOutcome.responded 500 = PutOutcome.responded status →
        (_reset_monitoring 5000
          { borderRouters := [("br1-x-1",
            { internalAddrs := [("IPv4", { addr := "10.0.0.2", overlayPort := 31069 })]
              ctrlAddr := [("IPv4", { addr := "10.0.0.2", l4Port := 30069 })]
              interfaces := [] })] }
          (PutOutcome.responded 500)).outcome = Except.ok (respOk status) :=
  C2_marker_iff 5000
    { borderRouters := [("br1-x-1",
      { internalAddrs := [("IPv4", { addr := "10.0.0.2", overlayPort := 31069 })]
        ctrlAddr := [("IPv4", { addr := "10.0.0.2", l4Port := 30069 })]
        interfaces := [] })] }
    (PutOutcome.responded 500) ⟨_, rfl⟩

/-- C2 counterexample: a completed `requests.put` with a non-success
status (500) is a failed remap (`updated = False`), yet the marker file is
deleted, contradicting the claim that any failure leaves the marker in
place. -/
theorem C2_counterexample :
    (_reset_monitoring 5000
      { borderRouters := [("br1-x-1",
        { internalAddrs := [("IPv4", { addr := "10.0.0.2", overlayPort := 31069 })]
          ctrlAddr := [("IPv4", { addr := "10.0.0.2", l4Port := 30069 })]
          interfaces := [] })] }
      (PutOutcome.responded 500)).markerPresent = false
    ∧ (_reset_monitoring 5000
      { borderRouters := [("br1-x-1",
        { internalAddrs := [("IPv4", { addr := "10.0.0.2", overlayPort := 31069 })]
          ctrlAddr := [("IPv4", { addr := "10.0.0.2", l4Port := 30069 })]
          interfaces := [] })] }
      (PutOutcome.responded 500)).outcome = Except.ok false := by
  exact ⟨rfl, rfl⟩

/-! ## Claim C8: round-trip reconciliation -/

theorem prune_roundtrip (config : LocalConfig) (my_asid : String) (tp : Topo)
    (conns : List Conn)
    (hinfra : ∀ c ∈ conns, asid_is_infrastructure c.ASID.asn = false) :
    (_remove_child_interfaces
        (fullsync_local_gen_core config my_asid tp conns).new_tp).borderRouters
      = if (infraBR my_asid tp).interfaces.isEmpty then []
        else [(brName my_asid 1, infraBR my_asid tp)] := by
  have hBkeep : (infraBR my_asid tp).interfaces.filter
      (fun ikv => !pruneCondition ikv.2) = (infraBR my_asid tp).interfaces := by
    rw [List.filter_eq_self]
    intro ikv hikv
    rcases combine_snd_sub _ _ ikv hikv with ⟨kv, hkv, hik⟩
    rw [prune_iface_keep tp kv hkv ikv hik]
    rfl
  have huser : ∀ u ∈ (finalLoopState config my_asid tp conns).userBRs,
      (u.interfaces.filter fun ikv => !pruneCondition ikv.2) = [] := by
    intro u hu
    rw [List.filter_eq_nil_iff]
    intro ikv hikv
    rcases (finalLoopState_inv config my_asid tp conns).2.2.2.2.2 u hu ikv hikv
      with ⟨hlink, c, hc, hasid⟩
    have hcond : pruneCondition ikv.2 = true := by
      unfold pruneCondition
      rw [hasid, hinfra c hc, hlink]
      rfl
    rw [hcond]
    simp
  show (_remove_child_interfaces { borderRouters := newBRs config my_asid tp conns }).borderRouters
      = _
  unfold _remove_child_interfaces
  simp only
  rw [newBRs_eq, List.map_cons, List.filter_cons]
  have hfB : ((brName my_asid 1, infraBR my_asid tp).1,
      { (brName my_asid 1, infraBR my_asid tp).2 with
        interfaces := (brName my_asid 1, infraBR my_asid tp).2.interfaces.filter
          fun ikv => !pruneCondition ikv.2 })
      = (brName my_asid 1, infraBR my_asid tp) := by
    simp only
    rw [hBkeep]
  have hrest : (((finalLoopState config my_asid tp conns).userBRs.enum.map
        fun ib => (brName my_asid (ib.1 + 11), ib.2)).map
      fun kv => (kv.1, { kv.2 with
        interfaces := kv.2.interfaces.filter fun ikv => !pruneCondition ikv.2 })).filter
      (fun kv => !kv.2.interfaces.isEmpty) = [] := by
    rw [List.filter_eq_nil_iff]
    intro kv hkv
    rcases List.mem_map.1 hkv with ⟨kv2, hkv2, he⟩
    rcases List.mem_map.1 hkv2 with ⟨ib, hib, he2⟩
    have hmem : ib.2 ∈ (finalLoopState config my_asid tp conns).userBRs := by
      have : ib.2 ∈ (finalLoopState config my_asid tp conns).userBRs.enum.map Prod.snd :=
        List.mem_map_of_mem Prod.snd hib
      rwa [List.enum_map_snd] at this
    have hnil : kv.2.interfaces = [] := by
      rw [← he, ← he2]
      simp only
      exact huser ib.2 hmem
    rw [hnil]
    simp
  rw [hfB] at *
  by_cases hBe : (infraBR my_asid tp).interfaces.isEmpty
  · rw [if_pos hBe]
    have hp : (!(infraBR my_asid tp).interfaces.isEmpty) = false := by
      rw [hBe]
      rfl
    simp only [hfB, hp, Bool.false_eq_true, if_false]
    exact hrest
  · rw [if_neg hBe]
    have hp : (!(infraBR my_asid tp).interfaces.isEmpty) = true := by
      simp [List.isEmpty_iff] at hBe ⊢
      exact hBe
    simp only [hfB, hp, if_true]
    rw [hrest]

theorem combine_roundtrip (config : LocalConfig) (my_asid : String) (tp : Topo)
    (conns : List Conn)
    (hinfra : ∀ c ∈ conns, asid_is_infrastructure c.ASID.asn = false) :
    _combine_border_routers
        (_remove_child_interfaces
          (fullsync_local_gen_core config my_asid tp conns).new_tp).borderRouters
        (brName my_asid 1)
      = ([(brName my_asid 1, infraBR my_asid tp)], infraBR my_asid tp) := by
  rw [prune_roundtrip config my_asid tp conns hinfra]
  by_cases hBe : (infraBR my_asid tp).interfaces.isEmpty
  · rw [if_pos hBe]
    have hBempty : infraBR my_asid tp = _create_border_router := by
      apply combine_snd_empty _ _ (prune_ifaces_ne_nil tp)
      exact List.isEmpty_iff.1 hBe
    rw [hBempty]
    rfl
  · rw [if_neg hBe]
    rfl

theorem infraBR_roundtrip (config : LocalConfig) (my_asid : String) (tp : Topo)
    (conns : List Conn)
    (hinfra : ∀ c ∈ conns, asid_is_infrastructure c.ASID.asn = false) :
    infraBR my_asid (fullsync_local_gen_core config my_asid tp conns).new_tp
      = infraBR my_asid tp := by
  unfold infraBR
  rw [combine_roundtrip config my_asid tp conns hinfra]
  rfl

theorem newBRs_roundtrip (config : LocalConfig) (my_asid : String) (tp : Topo)
    (conns : List Conn)
    (hinfra : ∀ c ∈ conns, asid_is_infrastructure c.ASID.asn = false) :
    newBRs config my_asid (fullsync_local_gen_core config my_asid tp conns).new_tp conns
      = newBRs config my_asid tp conns := by
  have hfinal : finalLoopState config my_asid
      (fullsync_local_gen_core config my_asid tp conns).new_tp conns
      = finalLoopState config my_asid tp conns := by
    unfold finalLoopState
    have hinit : initLoopState my_asid (fullsync_local_gen_core config my_asid tp conns).new_tp
        = initLoopState my_asid tp := by
      unfold initLoopState
      rw [infraBR_roundtrip config my_asid tp conns hinfra]
    rw [hinit]
  have hfst1 : (_combine_border_routers
      (_remove_child_interfaces
        (fullsync_local_gen_core config my_asid tp conns).new_tp).borderRouters
      (brName my_asid 1)).1 = [(brName my_asid 1, infraBR my_asid tp)] := by
    rw [combine_roundtrip config my_asid tp conns hinfra]
  have hfst0 : (_combine_border_routers
      (_remove_child_interfaces tp).borderRouters
      (brName my_asid 1)).1 = [(brName my_asid 1, infraBR my_asid tp)] :=
    combine_fst _ _
  unfold newBRs
  rw [hfinal, hfst1, hfst0]

/-- C8 (amended): reconciling the output topology of a reconciliation pass
against the same desired-connection batch, in the same order, yields an
equal `BorderRouters` section and reports `changed = false` — provided the
input topology is well-formed and no desired connection names an
infrastructure remote AS.  (A connection towards an infrastructure AS
breaks the round trip: its interface survives the second prune and is
merged into the infrastructure router, see the counterexample.) -/
theorem C8_roundtrip (config : LocalConfig) (my_asid : String) (tp : Topo)
    (conns : List Conn) (hwf : tp.WF)
    (hinfra : ∀ c ∈ conns, asid_is_infrastructure c.ASID.asn = false) :
    (fullsync_local_gen_core config my_asid
        (fullsync_local_gen_core config my_asid tp conns).new_tp conns).new_tp.borderRouters
      = (fullsync_local_gen_core config my_asid tp conns).new_tp.borderRouters
    ∧ (fullsync_local_gen_core config my_asid
        (fullsync_local_gen_core config my_asid tp conns).new_tp conns).topo_changed
      = false := by
  constructor
  · show newBRs config my_asid (fullsync_local_gen_core config my_asid tp conns).new_tp conns
      = newBRs config my_asid tp conns
    exact newBRs_roundtrip config my_asid tp conns hinfra
  · show (!dictEquiv brEquiv
        (fullsync_local_gen_core config my_asid tp conns).new_tp.borderRouters
        (newBRs config my_asid
          (fullsync_local_gen_core config my_asid tp conns).new_tp conns)) = false
    rw [newBRs_roundtrip config my_asid tp conns hinfra]
    have hrefl : dictEquiv brEquiv (newBRs config my_asid tp conns)
        (newBRs config my_asid tp conns) = true :=
      dictEquiv_refl brEquiv _ (newBRs_keys_nodup config my_asid tp conns)
        (fun kv hkv => brEquiv_refl kv.2 (newBRs_values_WF config my_asid tp conns hwf kv hkv))
    show (!dictEquiv brEquiv (newBRs config my_asid tp conns)
        (newBRs config my_asid tp conns)) = false
    rw [hrefl]
    rfl

/-- Witness for C8 (amended): empty topology, one non-infrastructure
connection; the second pass changes nothing. -/
theorem C8_roundtrip_witness :
    (fullsync_local_gen_core { interface_ip := "192.0.2.1", internal_ip := "10.0.0.2" }
        "1-x"
        (fullsync_local_gen_core { interface_ip := "192.0.2.1", internal_ip := "10.0.0.2" }
          "1-x" { borderRouters := [] }
          [{ ASID := { isd := 1, asn := 2 }, UserIP := "1.2.3.4", UserPort := 50000,
             APPort := 50021, APBRID := 20, IsVPN := false, VPNUserID := "" }]).new_tp
        [{ ASID := { isd := 1, asn := 2 }, UserIP := "1.2.3.4", UserPort := 50000,
           APPort := 50021, APBRID := 20, IsVPN := false,
           VPNUserID := "" }]).new_tp.borderRouters
      = (fullsync_local_gen_core { interface_ip := "192.0.2.1", internal_ip := "10.0.0.2" }
          "1-x" { borderRouters := [] }
          [{ ASID := { isd := 1, asn := 2 }, UserIP := "1.2.3.4", UserPort := 50000,
             APPort := 50021, APBRID := 20, IsVPN := false,
             VPNUserID := "" }]).new_tp.borderRouters
    ∧ (fullsync_local_gen_core { interface_ip := "192.0.2.1", internal_ip := "10.0.0.2" }
        "1-x"
        (fullsync_local_gen_core { interface_ip := "192.0.2.1", internal_ip := "10.0.0.2" }
          "1-x" { borderRouters := [] }
          [{ ASID := { isd := 1, asn := 2 }, UserIP := "1.2.3.4", UserPort := 50000,
             APPort := 50021, APBRID := 20, IsVPN := false, VPNUserID := "" }]).new_tp
        [{ ASID := { isd := 1, asn := 2 }, UserIP := "1.2.3.4", UserPort := 50000,
           APPort := 50021, APBRID := 20, IsVPN := false,
           VPNUserID := "" }]).topo_changed = false :=
  C8_roundtrip { interface_ip := "192.0.2.1", internal_ip := "10.0.0.2" } "1-x"
    { borderRouters := [] }
    [{ ASID := { isd := 1, asn := 2 }, UserIP := "1.2.3.4", UserPort := 50000,
       APPort := 50021, APBRID := 20, IsVPN := false, VPNUserID := "" }]
    (by decide) (by decide)

/-- C8 counterexample: with a single desired connection whose remote AS is
an infrastructure AS (`0xffaa00000001`), the second reconciliation pass
over the converged topology skips the connection, merges its interface
into the infrastructure router, and reports `changed = true`. -/
theorem C8_counterexample :
    (fullsync_local_gen_core { interface_ip := "192.0.2.1", internal_ip := "10.0.0.2" }
        "1-x"
        (fullsync_local_gen_core { interface_ip := "192.0.2.1", internal_ip := "10.0.0.2" }
          "1-x" { borderRouters := [] }
          [{ ASID := { isd := 1, asn := 0xffaa00000001 }, UserIP := "1.2.3.4",
             UserPort := 50000, APPort := 50021, APBRID := 20, IsVPN := false,
             VPNUserID := "" }]).new_tp
        [{ ASID := { isd := 1, asn := 0xffaa00000001 }, UserIP := "1.2.3.4",
           UserPort := 50000, APPort := 50021, APBRID := 20, IsVPN := false,
           VPNUserID := "" }]).topo_changed = true := by
  decide
